import Mathlib

/-!
Verification of the Compass-LK duplicate-resolution and local-asset-matching
logic.

The development shallowly embeds the relevant JavaScript/TypeScript code:

* `scripts/remove_duplicates.mjs` (the maintenance script),
* the `Remove Duplicates` handler of the admin dashboard page,
* the list-view page (`normalizeForKey`, `findLocalImages`,
  `findManualOverride`, `findProvinceImage`, `dedupeDestinations`,
  `getSnippet` and the card image selection), and
* the detail page (`normalizeForKey`, `localImageEntries` with its
  root-preference sort, `findLocalImages`, `findManualOverride`,
  `getFallback` and `primaryImageUrl`).

Conventions of the embedding:

* JavaScript strings are Lean `String`s; the code under study only ever
  builds keys and tokens from ASCII data, so per-char lower-casing models
  `toLowerCase`.
* nullable / optional values are `Option`s.  JavaScript truthiness on
  strings (`null`, `undefined` and `""` are falsy) is made explicit in
  the `jsOrS` / `truthyS` helpers.
* numeric columns (`location_lat`, `location_lng`) are modelled as `Rat`;
  the code only ever uses their truthiness (non-null and non-zero).
* `Array.prototype.sort` receives consistent comparators in this code and
  is required to be stable, so it is modelled by a stable insertion sort
  over an integer-valued comparator.
* regular-expression `.test` calls are modelled by a small executable
  matcher (`Rx` / `rxSearch`) covering exactly the constructs the source
  patterns use: literals, `\s` and `\s*`, optional atoms and alternation,
  searched at every start position like `RegExp.test`.
-/

/-! ## Generic string helpers -/

/-- Per-character lower-casing; models `String.prototype.toLowerCase` on the
ASCII data handled by the app. -/
def lowerStr (s : String) : String := String.mk (s.data.map Char.toLower)

/-- The whitespace characters recognised by the model (ASCII whitespace);
used both for the `\s` regex class and for `trim`. -/
def isWsChar (c : Char) : Bool := c = ' ' || c = '\t' || c = '\n' || c = '\r'

/-- `c` lies in the character class `[a-z0-9]`. -/
def isAlnumLower (c : Char) : Bool :=
  ('a' ≤ c && c ≤ 'z') || ('0' ≤ c && c ≤ '9')

/-- Trim of a character list: drop whitespace at both ends. -/
def trimChars (l : List Char) : List Char :=
  ((l.dropWhile isWsChar).reverse.dropWhile isWsChar).reverse

/-- Models `String.prototype.trim`. -/
def jsTrim (s : String) : String := String.mk (trimChars s.data)

/-- `needle` is a prefix of `hay` (on character lists). -/
def prefixOfChars : List Char → List Char → Bool
  | [], _ => true
  | _ :: _, [] => false
  | a :: as, b :: bs => a = b && prefixOfChars as bs

/-- `needle` occurs as a contiguous segment of `hay`. -/
def containsFrom (needle : List Char) : List Char → Bool
  | [] => needle.isEmpty
  | hay@(_ :: t) => prefixOfChars needle hay || containsFrom needle t

/-- Models `String.prototype.includes`: `sContains s sub` is `s.includes(sub)`. -/
def sContains (s sub : String) : Bool := containsFrom sub.data s.data

/-- All suffixes of a character list (including itself and `[]`). -/
def charTails : List Char → List (List Char)
  | [] => [[]]
  | l@(_ :: t) => l :: charTails t

/-! ## A minimal regex matcher

Just enough semantics for the patterns appearing in the source: character
literals, the `\s` class, `\s*`, optional atoms (`?`, including optional
non-capturing groups) and alternation (`|`). -/

inductive Rx where
  | eps
  | ch (c : Char)
  | ws
  | wsStar
  | seq (a b : Rx)
  | alt (a b : Rx)
  | opt (a : Rx)
deriving Repr

/-- Suffixes of `s` reachable by consuming zero or more whitespace
characters from the front (used for `\s*`). -/
def wsTails : List Char → List (List Char)
  | [] => [[]]
  | l@(c :: t) => if isWsChar c then l :: wsTails t else [l]

/-- CPS matcher: `rxMat r s k` holds when some split `s = u ++ v` has `u`
matched by `r` and `k v` true. -/
def rxMat : Rx → List Char → (List Char → Bool) → Bool
  | .eps, s, k => k s
  | .ch c, s, k =>
      match s with
      | [] => false
      | d :: t => c = d && k t
  | .ws, s, k =>
      match s with
      | [] => false
      | d :: t => isWsChar d && k t
  | .wsStar, s, k => (wsTails s).any k
  | .seq a b, s, k => rxMat a s (fun s2 => rxMat b s2 k)
  | .alt a b, s, k => rxMat a s k || rxMat b s k
  | .opt a, s, k => k s || rxMat a s k

/-- Unanchored search, like `RegExp.prototype.test`. -/
def rxSearch (r : Rx) (s : String) : Bool :=
  (charTails s.data).any (fun suf => rxMat r suf (fun _ => true))

/-- Case-insensitive test (the `/i` flag): search on the lower-cased input;
every pattern in the source is written in lower case. -/
def rxTestI (r : Rx) (s : String) : Bool := rxSearch r (lowerStr s)

/-- A literal string as a regex. -/
def rxStr (s : String) : Rx := s.data.foldr (fun c r => Rx.seq (Rx.ch c) r) Rx.eps

/-- Sequencing of a list of regexes. -/
def rxSeq (l : List Rx) : Rx := l.foldr Rx.seq Rx.eps

/-- Alternation of a list of regexes (empty list matches nothing useful;
not used on empty lists). -/
def rxAlts : List Rx → Rx
  | [] => Rx.eps
  | [r] => r
  | r :: rs => Rx.alt r (rxAlts rs)

/-- Alternation of literal strings, the most common pattern shape. -/
def rxLits (l : List String) : Rx := rxAlts (l.map rxStr)

/-! ## JavaScript value helpers -/

/-- A JavaScript string argument: `undefined`, `null`, or a string.  Needed
where the source distinguishes the two non-values (default parameters fire
only on `undefined`, while `String(null)` is `"null"`). -/
inductive JsStr where
  | undef
  | null
  | str (s : String)
deriving Repr, DecidableEq

/-- JavaScript `String(x)` conversion on the three argument shapes. -/
def jsStringOf : JsStr → String
  | .undef => "undefined"
  | .null => "null"
  | .str s => s

/-- JavaScript `x || ''` on a string argument (empty string is falsy). -/
def jsOrEmpty : JsStr → String
  | .str s => if s = "" then "" else s
  | _ => ""

/-- JavaScript `a || b` on optional strings: `a` wins unless it is
null/undefined or the empty string. -/
def jsOrS : Option String → Option String → Option String
  | some s, b => if s = "" then b else some s
  | none, b => b

/-- Truthiness filter on an optional string: keeps `a` only when it is a
non-empty string. -/
def truthyS : Option String → Option String
  | some s => if s = "" then none else some s
  | none => none

/-- Truthiness of an optional string, as used in `if (x) score += n`. -/
def truthyStr (o : Option String) : Bool :=
  match o with
  | none => false
  | some s => s ≠ ""

/-- Truthiness of an optional number: non-null and non-zero. -/
def truthyNum (o : Option Rat) : Bool :=
  match o with
  | none => false
  | some q => q ≠ 0

/-! ## A stable comparator sort

`Array.prototype.sort` with a consistent integer-valued comparator is a
stable sort; modelled by insertion sort that inserts each element in front
of the first position whose element does not strictly precede it. -/

/-- Insert `x` before the first `y` with `c x y ≤ 0`; keeps earlier-input
elements first among ties, as a stable sort must. -/
def insertCmp (c : α → α → Int) (x : α) : List α → List α
  | [] => [x]
  | y :: ys => if c x y ≤ 0 then x :: y :: ys else y :: insertCmp c x ys

/-- Stable sort by an integer comparator (the model of `Array.sort(cmp)`
for the consistent comparators used in this code base). -/
def sortCmp (c : α → α → Int) : List α → List α
  | [] => []
  | x :: xs => insertCmp c x (sortCmp c xs)

theorem mem_insertCmp (c : α → α → Int) (x a : α) (l : List α) :
    a ∈ insertCmp c x l ↔ a = x ∨ a ∈ l := by
  induction l with
  | nil => simp [insertCmp]
  | cons y ys ih =>
      by_cases h : c x y ≤ 0 <;> simp [insertCmp, h, ih, or_assoc, or_left_comm]

theorem mem_sortCmp (c : α → α → Int) (a : α) (l : List α) :
    a ∈ sortCmp c l ↔ a ∈ l := by
  induction l with
  | nil => simp [sortCmp]
  | cons x xs ih => simp [sortCmp, mem_insertCmp, ih]

theorem sortCmp_pair (c : α → α → Int) (x y : α) :
    sortCmp c [x, y] = if c x y ≤ 0 then [x, y] else [y, x] := by
  simp only [sortCmp, insertCmp]

/-! ## Normalisation functions of the Duplicate Resolver

Three textual copies exist: `scripts/remove_duplicates.mjs` line 24, the
admin dashboard handler, and the list view.  All three lower-case, strip
every character outside `[a-z0-9]`, then trim; they differ only in how a
null/undefined argument reaches the pipeline. -/

/-- The shared string pipeline `s.toLowerCase().replace(/[^a-z0-9]/g, '').trim()`. -/
def normalizePipe (s : String) : String :=
  jsTrim (String.mk ((lowerStr s).data.filter isAlnumLower))

/-- `remove_duplicates.mjs`:
`const normalize = (s = ...) => String(s).toLowerCase().replace(/[^a-z0-9]/g, ...).trim();`
with default parameter the empty string.  The default fires only on
`undefined`; `String(null)` is the four-letter string `"null"`. -/
def normalize_mjs (a : JsStr) : String :=
  let s := match a with
    | .undef => JsStr.str ""
    | x => x
  normalizePipe (jsStringOf s)

/-- Admin-dashboard copy: `(s) => (s || ...).toLowerCase()....trim()`. -/
def normalize_admin (a : JsStr) : String := normalizePipe (jsOrEmpty a)

/-- List-view copy, textually identical to the admin copy. -/
def normalize_list (a : JsStr) : String := normalizePipe (jsOrEmpty a)

/-! ## Entities and scoring -/

/-- One row of `destination_images` as used by the pages (caption unused by
the embedded logic). -/
structure DImage where
  image_url : String
  is_primary : Bool
deriving Repr, DecidableEq

/-- A destination row, with exactly the fields the embedded logic reads.
Numeric coordinates are rationals; only their truthiness is ever used. -/
structure Entity where
  id : String
  name : Option String := none
  description : Option String := none
  province_id : Option String := none
  image_url : Option String := none
  location_lat : Option Rat := none
  location_lng : Option Rat := none
  destination_images : List DImage := []
deriving Repr, DecidableEq

/-- The grouping key `normalize(d.name || ...)`; identical at all three
call sites (the three `normalize` copies agree on string inputs). -/
def entityKey (d : Entity) : String :=
  normalizePipe (match d.name with | some s => if s = "" then "" else s | none => "")

/-- Scoring in `remove_duplicates.mjs` (lines 50-57): description worth 2
when truthy and non-blank after trimming, province 1, image 2, either
coordinate 1. -/
def scoreScript (e : Entity) : Nat :=
  (if truthyStr e.description && ((jsTrim (e.description.getD "")).length > 0) then 2 else 0)
  + (if truthyStr e.province_id then 1 else 0)
  + (if truthyStr e.image_url then 2 else 0)
  + (if truthyNum e.location_lat || truthyNum e.location_lng then 1 else 0)

/-- Scoring in the admin-dashboard Remove Duplicates handler, textually the
same four contributions as the script. -/
def scoreAdmin (e : Entity) : Nat :=
  (if truthyStr e.description && ((jsTrim (e.description.getD "")).length > 0) then 2 else 0)
  + (if truthyStr e.province_id then 1 else 0)
  + (if truthyStr e.image_url then 2 else 0)
  + (if truthyNum e.location_lat || truthyNum e.location_lng then 1 else 0)

/-- Scoring in the list-view `dedupeDestinations`: same four contributions
plus 3 more when the row has any `destination_images` entry. -/
def scoreList (e : Entity) : Nat :=
  (if truthyStr e.description && ((jsTrim (e.description.getD "")).length > 0) then 2 else 0)
  + (if truthyStr e.province_id then 1 else 0)
  + (if truthyStr e.image_url then 2 else 0)
  + (if e.destination_images.length > 0 then 3 else 0)
  + (if truthyNum e.location_lat || truthyNum e.location_lng then 1 else 0)

/-- The scoring rule exactly as claim C1 words it: +2 when `description`
is present and non-empty after trimming, +1 when `province_id` is present
(non-null), +2 when `image_url` is present, +1 when `location_lat` or
`location_lng` is present. -/
def scoreClaimC1 (e : Entity) : Nat :=
  (if e.description.isSome ∧ jsTrim (e.description.getD "") ≠ "" then 2 else 0)
  + (if e.province_id.isSome then 1 else 0)
  + (if e.image_url.isSome then 2 else 0)
  + (if e.location_lat.isSome || e.location_lng.isSome then 1 else 0)

/-! ## Comparators and per-group resolution -/

/-- A scored list element, as built by `list.map(item => ({item, score}))`. -/
structure Scored where
  item : Entity
  score : Nat
deriving Repr, DecidableEq

/-- Lexicographic code-point comparison of character lists. -/
def charListLt : List Char → List Char → Bool
  | [], [] => false
  | [], _ :: _ => true
  | _ :: _, [] => false
  | a :: as, b :: bs => if a < b then true else if b < a then false else charListLt as bs

/-- Code-point order on strings (executable). -/
def strLt (a b : String) : Bool := charListLt a.data b.data

/-- `String.prototype.localeCompare`, modelled as code-point comparison.
The identifiers compared in this app are uuid strings over `[0-9a-f-]`,
on which the default locale collation and code-point order agree. -/
def localeCompare (a b : String) : Int :=
  if strLt a b then -1 else if strLt b a then 1 else 0

/-- `(a.item.description || '').length`. -/
def descLen (e : Entity) : Nat := (e.description.getD "").length

/-- Comparator of `remove_duplicates.mjs` (lines 58-65): score descending,
then longer description first, then ascending id. -/
def cmpScript (a b : Scored) : Int :=
  if b.score ≠ a.score then (b.score : Int) - (a.score : Int)
  else if descLen b.item ≠ descLen a.item then
    (descLen b.item : Int) - (descLen a.item : Int)
  else localeCompare a.item.id b.item.id

/-- Comparator of the admin handler: score descending, then ascending id. -/
def cmpAdmin (a b : Scored) : Int :=
  if b.score ≠ a.score then (b.score : Int) - (a.score : Int)
  else localeCompare a.item.id b.item.id

/-- Comparator of the list-view `dedupeDestinations`, textually the same
two steps as the admin handler. -/
def cmpList (a b : Scored) : Int :=
  if b.score ≠ a.score then (b.score : Int) - (a.score : Int)
  else localeCompare a.item.id b.item.id

/-- Per-group action of the script: groups of size at most 1 are skipped;
otherwise the sorted head is kept and the rest are marked for removal. -/
def groupActionScript (list : List Entity) : List (Entity × List Entity) :=
  if list.length ≤ 1 then []
  else
    match sortCmp cmpScript (list.map (fun item => ⟨item, scoreScript item⟩)) with
    | [] => []
    | k :: rest => [(k.item, rest.map (·.item))]

/-- Per-group ids pushed onto `idsToDelete` by the admin handler. -/
def groupDeleteAdmin (list : List Entity) : List String :=
  if list.length ≤ 1 then []
  else
    match sortCmp cmpAdmin (list.map (fun item => ⟨item, scoreAdmin item⟩)) with
    | [] => []
    | _ :: rest => rest.map (·.item.id)

/-- Per-group choice of the list view: a singleton group is kept as is;
otherwise only the sorted head survives. -/
def groupChoiceList (list : List Entity) : List Entity :=
  if list.length = 1 then list
  else
    match sortCmp cmpList (list.map (fun item => ⟨item, scoreList item⟩)) with
    | [] => []
    | k :: _ => [k.item]

/-! ## Grouping

All three sites build a plain object keyed by the normalised name and then
iterate `Object.values`, which enumerates string keys in insertion order
(the keys produced here are non-numeric).  The model keeps an association
list in first-appearance order. -/

/-- Append `e` to the group keyed `k`, creating the group at the end when
absent. -/
def addToGroups (k : String) (e : Entity) :
    List (String × List Entity) → List (String × List Entity)
  | [] => [(k, [e])]
  | (k2, es) :: rest =>
      if k2 = k then (k2, es ++ [e]) :: rest else (k2, es) :: addToGroups k e rest

/-- Group a list of entities by a string key. -/
def groupsOf (key : Entity → String) (l : List Entity) : List (String × List Entity) :=
  l.foldl (fun gs e => addToGroups (key e) e gs) []

/-- The duplicate plan of `remove_duplicates.mjs`: one `(keep, remove)`
pair per group of size at least 2. -/
def duplicatesScript (l : List Entity) : List (Entity × List Entity) :=
  ((groupsOf entityKey l).map Prod.snd).flatMap groupActionScript

/-- `toDelete = duplicates.flatMap(g => g.remove.map(r => r.id))`. -/
def toDeleteScript (l : List Entity) : List String :=
  (duplicatesScript l).flatMap (fun g => g.2.map (·.id))

/-- The `idsToDelete` array computed by the admin handler. -/
def idsToDeleteAdmin (l : List Entity) : List String :=
  ((groupsOf entityKey l).map Prod.snd).flatMap groupDeleteAdmin

/-- Index of the last occurrence of an id, as `new Map(items.map((it, idx)
=> [it.id, idx]))` keeps the last binding per key. -/
def lastIdxOfId (items : List Entity) (id : String) : Option Nat :=
  ((items.enum.filter (fun p => p.2.id = id)).getLast?).map (·.1)

/-- The list-view `dedupeDestinations`: group, choose per group, then
re-sort the chosen rows by their (last) index in the input. -/
def dedupeDestinations (items : List Entity) : List Entity :=
  let chosen := ((groupsOf entityKey items).map Prod.snd).flatMap groupChoiceList
  sortCmp
    (fun a b => ((lastIdxOfId items a.id).getD 0 : Int) - ((lastIdxOfId items b.id).getD 0 : Int))
    chosen

/-! ## Key normalisation of the Local Asset Matcher

`normalizeForKey` appears textually identically in the detail page and the
list view: NFKD normalisation, stripping of the apostrophe family, stripping
of combining diacritical marks, lower-casing, stripping of everything
outside `[a-z0-9]`. -/

/-- The apostrophe-family class `['’`’]` of the source
(ASCII apostrophe, right single quotation mark, backtick). -/
def isAposFam (c : Char) : Bool :=
  c = Char.ofNat 39 || c = Char.ofNat 0x2019 || c = Char.ofNat 0x60

/-- The combining diacritical marks range `[̀-ͯ]`. -/
def isCombining (c : Char) : Bool := 0x300 ≤ c.toNat && c.toNat ≤ 0x36f

/-- `normalizeForKey` of the detail page and the list view.
`String.prototype.normalize('NFKD')` is the identity on every code point
the claims evaluate (ASCII plus the apostrophe family), and is modelled as
the identity step of the pipeline. -/
def normalizeForKey (s : String) : String :=
  let s1 := s
  let s2 := String.mk (s1.data.filter (fun c => !(isAposFam c)))
  let s3 := String.mk (s2.data.filter (fun c => !(isCombining c)))
  let s4 := lowerStr s3
  String.mk (s4.data.filter isAlnumLower)

/-! ## Image candidate entries -/

/-- One discovered local image: path, served url, extracted filename and
normalised key. -/
structure ImgEntry where
  path : String
  url : String
  filename : String
  key : String
deriving Repr, DecidableEq

/-- `filename.replace(/\.[^/.]+$/, '')`: strip a final extension (a dot
followed by one or more characters none of which is a dot or slash). -/
def stripExt (filename : String) : String :=
  let rev := filename.data.reverse
  let ext := rev.takeWhile (fun c => c ≠ '.' && c ≠ '/')
  let rest := rev.drop ext.length
  match rest with
  | '.' :: t => if ext.isEmpty then filename else String.mk t.reverse
  | _ => filename

/-- Split a character list at every occurrence of `sep`, keeping empty
pieces, like `String.prototype.split` with a single-character separator. -/
def splitOnCharAux (sep : Char) (acc : List Char) : List Char → List (List Char)
  | [] => [acc.reverse]
  | c :: t =>
      if c = sep then acc.reverse :: splitOnCharAux sep [] t
      else splitOnCharAux sep (c :: acc) t

/-- `s.split(sep)` for a one-character separator. -/
def splitOnChar (sep : Char) (s : String) : List String :=
  (splitOnCharAux sep [] s.data).map String.mk

/-- Building one entry of `localImageEntries` from a glob result pair
(path, url): split the path on slashes, take the last segment as filename
(`parts[parts.length - 1] || ''`), strip its extension, normalise to a
key. -/
def mkEntry (path url : String) : ImgEntry :=
  let parts := splitOnChar '/' path
  let filename := match parts.getLast? with
    | some f => if f = "" then "" else f
    | none => ""
  let nameWithoutExt := stripExt filename
  { path := path, url := url, filename := filename, key := normalizeForKey nameWithoutExt }

/-- `/\/src\/pictures\/|\\src\\pictures\\/i` tested on the entry path. -/
def picRootRx : Rx :=
  rxLits ["/src/pictures/", "\\src\\pictures\\"]

/-- Whether an entry lies under the primary asset root `src/pictures`. -/
def isPicRoot (e : ImgEntry) : Bool := rxTestI picRootRx e.path

/-- The root-preference comparator of the detail page: entries with equal
primary-root status tie, otherwise the primary-root entry comes first. -/
def cmpEntries (a b : ImgEntry) : Int :=
  if isPicRoot a = isPicRoot b then 0 else if isPicRoot a then -1 else 1

/-- The module-level `localImageEntries.sort(...)` of the detail page. -/
def sortEntries (entries : List ImgEntry) : List ImgEntry :=
  sortCmp cmpEntries entries

/-! ## Tokenisation and substring matching -/

/-- Maximal runs of `[a-z0-9]` characters: the result of splitting on
`/[^a-z0-9]+/` with empty pieces discarded. -/
def splitRunsAux (acc : List Char) : List Char → List (List Char)
  | [] => if acc.isEmpty then [] else [acc.reverse]
  | c :: t =>
      if isAlnumLower c then splitRunsAux (c :: acc) t
      else if acc.isEmpty then splitRunsAux [] t
      else acc.reverse :: splitRunsAux [] t

/-- `String(name || '').toLowerCase().split(/[^a-z0-9]+/).filter(Boolean)`. -/
def tokensOf (name : String) : List String :=
  (splitRunsAux [] (lowerStr name).data).map String.mk

/-- `findLocalImages` of the detail page: a candidate with an empty key is
rejected; otherwise it matches when its key and the name key contain each
other in either direction, or when some non-empty token occurs in the
lower-cased filename or path. -/
def findLocalImages5 (entries : List ImgEntry) (name : String) : List String :=
  let key := normalizeForKey name
  let tokens := tokensOf name
  (entries.filter (fun e =>
    if e.key = "" then false
    else if sContains e.key key || sContains key e.key then true
    else tokens.any (fun t =>
      t ≠ "" && (sContains (lowerStr e.filename) t || sContains (lowerStr e.path) t)))).map (·.url)

/-- `findLocalImages` of the list view: only the forward containment test
`e.key.includes(key)`. -/
def findLocalImages6 (entries : List ImgEntry) (name : String) : List String :=
  let key := normalizeForKey name
  (entries.filter (fun e => sContains e.key key)).map (·.url)

/-- The matching predicate exactly as claim C4 words it: key containment
in either direction, or some token of the lower-cased name occurring in
the candidate filename or full path (case-insensitively). -/
def c4SpecMatches (name : String) (e : ImgEntry) : Bool :=
  let key := normalizeForKey name
  sContains e.key key || sContains key e.key ||
    (tokensOf name).any (fun t =>
      sContains (lowerStr e.filename) t || sContains (lowerStr e.path) t)

/-! ## Manual overrides and image selection chains -/

/-- `/horton plains|world's end|worlds end/i`. -/
def hortonNameRx : Rx :=
  rxLits ["horton plains", "world's end", "worlds end"]

/-- `/horton ?plains/i`. -/
def hortonFileRx : Rx :=
  rxSeq [rxStr "horton", Rx.opt (Rx.ch ' '), rxStr "plains"]

/-- `/aluvihare\stemple/` (a single whitespace between the words). -/
def aluvihareWsTempleRx : Rx :=
  rxSeq [rxStr "aluvihare", Rx.ws, rxStr "temple"]

/-- `/independence\s*square/`. -/
def independenceWsSquareRx : Rx :=
  rxSeq [rxStr "independence", Rx.wsStar, rxStr "square"]

/-- `findManualOverride` of the detail page: Aluvihare, Independence
Square and Horton Plains branches, each resolving to the first matching
entry of the candidate list (or none). -/
def findManualOverride5 (entries : List ImgEntry) (name : String) : Option String :=
  let key := normalizeForKey name
  if rxSearch (rxStr "aluvihare") key || rxSearch (rxStr "aluviharetemple") key
      || rxSearch aluvihareWsTempleRx key then
    (entries.find? (fun e => sContains (lowerStr e.filename) "aluvihare")).map (·.url)
  else if rxSearch (rxStr "independence") key || rxSearch (rxStr "independencesquare") key
      || rxSearch independenceWsSquareRx key then
    (entries.find? (fun e => sContains (lowerStr e.filename) "independence")).map (·.url)
  else if rxTestI hortonNameRx name then
    (entries.find? (fun e =>
      rxTestI hortonFileRx e.filename && rxTestI (rxStr "pictures") e.path)).map (·.url)
  else none

/-- `findManualOverride` of the list view: only the Aluvihare and Horton
Plains branches. -/
def findManualOverride6 (entries : List ImgEntry) (name : String) : Option String :=
  let key := normalizeForKey name
  if rxSearch (rxStr "aluvihare") key || rxSearch (rxStr "aluviharetemple") key
      || rxSearch aluvihareWsTempleRx key then
    (entries.find? (fun e => sContains (lowerStr e.filename) "aluvihare")).map (·.url)
  else if rxTestI hortonNameRx name then
    (entries.find? (fun e =>
      rxTestI hortonFileRx e.filename && rxTestI (rxStr "pictures") e.path)).map (·.url)
  else none

/-- `findProvinceImage` of the list view. -/
def findProvinceImage (entries : List ImgEntry) (provinceName : Option String) : Option String :=
  match truthyS provinceName with
  | none => none
  | some p =>
      let pKey := normalizeForKey p
      (entries.find? (fun e =>
        sContains (lowerStr e.path) (lowerStr p) || sContains e.key pKey)).map (·.url)

/-- The province fallback of the detail page: first entry whose path
contains the lower-cased province name or whose key contains the
province's key. -/
def provinceFallback5 (entries : List ImgEntry) (provinceName : String) : Option String :=
  (entries.find? (fun e =>
    sContains (lowerStr e.path) (lowerStr provinceName)
      || sContains e.key (normalizeForKey provinceName))).map (·.url)

/-- The detail-page primary image choice (line 242): the database primary
image when present, otherwise `(localFallbacks[0] || manual) ||
provinceFallback || null`. -/
def primaryImageUrl5 (entries : List ImgEntry) (dimages : List DImage)
    (name provinceName : String) : Option String :=
  match dimages.find? (fun img => img.is_primary) with
  | some img => some img.image_url
  | none =>
      let localFallbacks := findLocalImages5 entries name
      let manual := findManualOverride5 entries name
      jsOrS (jsOrS localFallbacks.head? manual) (provinceFallback5 entries provinceName)

/-- The list-view card image choice: database primary, else first database
image, else manual override, else first generic match, else province
image. -/
def cardImage6 (entries : List ImgEntry) (dimages : List DImage)
    (name provinceName : String) : Option String :=
  let dbPrimary := (dimages.find? (fun img => img.is_primary)).map (·.image_url)
  let dbFirst := jsOrS dbPrimary ((dimages.head?).map (·.image_url))
  let manual := findManualOverride6 entries name
  jsOrS (jsOrS (jsOrS dbFirst manual) (findLocalImages6 entries name).head?)
    (findProvinceImage entries (some provinceName))
/-- The `fallbackDescriptions` pattern table of the detail page, one `(pattern, text)` pair per entry, in source order. -/
def fallbackDescriptions : List (Rx × String) := [
  (rxStr "galle face",
   "Galle Face Green is a long, oceanfront promenade built during the Dutch colonial period. It is one of the most popular places in Colombo for evening walks, relaxing by the sea, and enjoying street food like isso wade and kottu. The strong sea breeze and open space make it perfect for flying kites. It is also a great spot to watch sunsets, attracting locals and tourists alike."),
  (rxStr "lotus tower",
   "The Lotus Tower is the tallest structure in South Asia at 350 meters, offering a panoramic observation deck with 360-degree views of Colombo. The tower houses restaurants, exhibitions, and entertainment zones, and its colorful night lighting makes it a striking city landmark."),
  (rxLits ["independence square", "independence arcade"],
   "Independence Square is a national monument commemorating Sri Lanka\u2019s independence. The surrounding gardens are peaceful and ideal for jogging, photos, and evening walks. The nearby Independence Arcade houses shops and restaurants in a restored colonial building."),
  (rxLits ["colombo national museum", "national museum"],
   "The National Museum showcases Sri Lanka\u2019s ancient heritage with royal regalia, statues, and Kandyan monarchy artifacts. Its historic architecture provides a classic colonial atmosphere and the grounds are spacious and shaded for a pleasant educational visit."),
  (rxStr "dutch hospital",
   "The Dutch Hospital precinct is a restored colonial building converted into a stylish shopping and dining complex featuring cafes, pubs, restaurants, and boutique shops. The preserved architecture creates a charming ambience, lively at night with music and entertainment."),
  (rxStr "mount lavinia",
   "Mount Lavinia Beach is a popular urban beach with golden sand and calm waves, known for seafood restaurants along the shore. It\u2019s ideal for swimming, beach photography, and offers a lively nightlife after sunset."),
  (rxLits ["dehiwala zoo", "zoo"],
   "Dehiwala Zoo is one of Asia\u2019s oldest zoological gardens, home to a wide range of animals and birds, daily animal shows including elephants, and a beautiful butterfly garden \u2014 a family-friendly attraction."),
  (rxStr "diyatha uyana",
   "Diyatha Uyana is a lakeside recreational area with walking paths, fish ponds, open-air restaurants, and a weekend market \u2014 clean, calm, and ideal for evening strolls with beautiful night lighting by the water."),
  (rxStr "beddagana",
   "Beddagana Wetland Park preserves a wetland ecosystem of birds and butterflies with elevated wooden paths for safe exploration \u2014 perfect for nature lovers, joggers, and photographers."),
  (rxStr "attidiya",
   "Attidiya Bird Sanctuary is a natural wetland sanctuary attracting local and migratory bird species, offering excellent birdwatching opportunities and a peaceful ecosystem close to the city."),
  (rxLits ["kelaniya", "kelaniya raja maha viharaya"],
   "Kelaniya Raja Maha Viharaya is a sacred Buddhist temple famed for its stunning murals and architecture. It hosts the annual Duruthu Perahera and is known as a place for spiritual ceremonies and blessings."),
  (rxStr "negombo beach",
   "Negombo Beach is a long sandy coastline known for water sports, sunset views, and traditional fishing catamarans. The nearby town offers lively restaurants and markets, and it\u2019s close to the airport."),
  (rxStr "negombo lagoon",
   "Negombo Lagoon is a rich brackish-water ecosystem with mangroves and birdlife, popular for boat rides and eco-tours. Local fishermen use traditional methods and lagoon crab harvesting is common."),
  (rxStr "hamilton canal",
   "Hamilton Canal, built during colonial times, once connected Colombo and Negombo. Today visitors enjoy peaceful boat rides and scenic views of village life and wetlands along the canal."),
  (rxStr "muthurajawela",
   "Muthurajawela Wetlands is one of Sri Lanka\u2019s largest wetlands, home to rare birds, crocodiles, and diverse plant life. Boat tours explore deep into the marshes and highlight an important biodiversity zone."),
  (rxLits ["kalutara bodhiya", "kalutara temple"],
   "Kalutara Bodhiya is a major Buddhist shrine identifiable by its large white stupa beside the riverside. The hollow stupa allows visitors to walk inside and many devotees stop to offer prayers."),
  (rxStr "richmond castle",
   "Richmond Castle is an elegant early 1900s mansion inspired by Indian palace architecture, noted for carved woodwork, stained glass, spacious halls and picturesque gardens."),
  (rxStr "kalutara beach",
   "Kalutara Beach is a wide sandy shore popular for resorts and peaceful seaside relaxation, quieter than Colombo and Negombo and suitable for swimming in calmer areas."),
  (rxStr "moragalla",
   "Moragalla Beach is a shallow, calm beach with crystal-clear water ideal for snorkeling and peaceful escapes away from crowds."),
  (rxLits ["barberyn", "beruwala lighthouse", "barberyn island"],
   "Beruwala (Barberyn) Island features a historic lighthouse built in 1889; a short boat ride offers great ocean views and photography opportunities."),
  (rxStr "kande viharaya",
   "Kande Viharaya is a large southern Buddhist temple famous for its giant Buddha statue, ancient frescoes, and peaceful meditation areas \u2014 a popular pilgrimage site."),
  (rxStr "thudugala",
   "Thudugala Waterfall is a small scenic waterfall with a shallow natural pool suitable for bathing, surrounded by forest walking paths and wildlife."),
  (rxLits ["horana lakshapana", "lakshapana tea museum"],
   "Horana Lakshapana Tea Museum showcases Sri Lanka\u2019s tea industry history, old machinery, and offers tea tastings in a setting surrounded by small tea estates."),
  (rxLits ["temple of the tooth", "dalada maligawa", "tooth relic"],
   "The Temple of the Tooth Relic (Sri Dalada Maligawa) is one of Sri Lanka\u2019s most sacred Buddhist temples, housing the revered tooth relic of Lord Buddha. Its Kandyan architecture features golden ornaments and traditional wooden carvings. Hundreds of devotees visit daily, and during the Esala Perahera the temple becomes the center of a grand cultural festival."),
  (rxLits ["kandy lake", "sea of milk"],
   "Kandy Lake (the \u2018Sea of Milk\u2019) is an artificial lake built in 1807. The lakeside walkway is perfect for peaceful strolls, birdwatching, and photography. The calm water and surrounding hills create a serene atmosphere in the heart of Kandy."),
  (rxLits ["peradeniya botanical", "peradeniya garden"],
   "Peradeniya Botanical Garden is Sri Lanka\u2019s largest botanical garden, home to over 4,000 plant species. It is famous for its orchid house, Royal Palm Avenue and ancient fig trees \u2014 a must-visit for nature lovers and photographers."),
  (rxLits ["udawatte kele", "udawatta kele", "udawatte"],
   "Udawatte Kele Sanctuary is a historic forest reserve behind the Temple of the Tooth, once reserved for Kandyan royalty. The shaded trails host diverse birdlife, monkeys and reptiles \u2014 a refreshing escape from the city."),
  (rxLits ["knuckles", "knuckles mountain"],
   "The Knuckles Mountain Range, a UNESCO-listed area, is known for misty peaks, deep valleys and rich biodiversity. It\u2019s a premier hiking destination offering routes from easy walks to challenging treks and spectacular viewpoints."),
  (rxStr "hunnasgiriya",
   "Hunnasgiriya is a cool, misty mountain near the Knuckles Range offering panoramic views of tea plantations and villages \u2014 a peaceful spot for moderate hikes and nature observation."),
  (rxStr "sembuwatta",
   "Sembuwatta Lake is a scenic man-made lake surrounded by pine forests and tea estates with turquoise waters ideal for picnics, paddle boating and relaxing in the cool mountain air."),
  (rxStr "ambuluwawa",
   "Ambuluwawa Tower is a multi-religious biodiversity center with a distinctive spiral tower. Visitors can climb the external winding staircase for panoramic 360-degree views and explore the gardens and sanctuaries."),
  (rxStr "riverston",
   "Riverston is a cool plateau in the Knuckles region known for windy viewpoints, dramatic drops and scenic drives \u2014 a favorite among hikers and photographers."),
  (rxLits ["bambarakiri", "bambarakiri ella"],
   "Bambarakiri Ella is a picturesque waterfall surrounded by lush greenery with a hanging bridge offering great views; it\u2019s an ideal spot for nature lovers and peaceful picnics."),
  (rxLits ["balangoda", "fahien", "fa-hien", "fa hien", "fa-hien cave", "fa hien cave"],
   "Balangoda Caves, also known as Fa-Hien Cave, are among the largest prehistoric cave sites in Sri Lanka, famous for discoveries related to the island\u2019s earliest human settlers known as the \u2018Balangoda Man.\u2019 The cave has revealed tools, skeletal remains, and evidence of human activity dating back over 38,000 years, making it a significant archaeological treasure. Its massive rock overhang and forest surroundings create a dramatic and atmospheric natural setting. Today, the cave stands as one of Sri Lanka\u2019s most important prehistoric heritage sites, offering insights into human evolution and ancient lifestyles."),
  (rxLits ["bogoda", "bogoda wooden bridge"],
   "Bogoda Wooden Bridge is one of Sri Lanka\u2019s oldest surviving wooden bridges, believed to date back to the 16th century during the Kandyan era. It is built entirely from timber\u2014without a single nail\u2014using traditional carpentry techniques and beautifully carved wooden pillars. The bridge sits beside the historic Bogoda Raja Maha Viharaya and spans a quiet stream surrounded by lush greenery. Today, it stands as a rare example of ancient craftsmanship and remains a peaceful cultural landmark in the Badulla district."),
  (rxStr "nalanda gedige",
   "Nalanda Gedige is an ancient stone temple blending Hindu and Buddhist architectural styles, considered by some to be the geographical center of Sri Lanka and notable for its mysterious historical significance."),
  (rxSeq [rxLits ["abhyagiri", "abhyagiriya", "abhayagiri", "abhayagiriya", "abayagiri", "abhayagiri"], Rx.opt (rxSeq [Rx.wsStar, rxLits ["stupa", "vihara", "temple", "monastery"]])],
   "A sprawling monastery complex once home to 5,000 monks, Abhayagiri was one of the greatest Buddhist universities in the ancient world. Built in the 1st century BC, it attracted scholars from China, India, and Southeast Asia. The massive Abhayagiri Stupa, ornate carvings, and monastic ruins reveal the brilliance of ancient architecture and the intellectual vibrancy of the kingdom."),
  (rxLits ["aluvihare", "aluvihare rock temple"],
   "Aluvihare Rock Temple is the place where Buddhist scriptures (Tripitaka) were first written down on palm leaves. The temple features a series of caves filled with ancient paintings and statues. It played a critical role in preserving Buddhist teachings. The atmosphere is quiet, spiritual, and full of historical significance."),
  (rxLits ["avukana", "aukana", "avukana buddha", "aukana buddha", "avukana statue"],
   "The Avukana Buddha Statue is a towering 40-foot standing Buddha carved out of a single granite rock during the 5th century, showcasing extraordinary ancient craftsmanship. The statue depicts the Buddha in the Asisa Mudra, symbolizing blessing and reassurance, with incredibly detailed robes that appear to flow naturally. It stands near the Kala Wewa reservoir, adding to its serene and majestic atmosphere. Today, Avukana remains one of Sri Lanka\u2019s most iconic Buddhist sculptures and a remarkable testament to the island\u2019s artistic and spiritual heritage."),
  (rxLits ["matale spice", "spice gardens"],
   "Matale Spice Gardens showcase cinnamon, pepper, cardamom and vanilla cultivation with guided tours, spice demonstrations and shops selling natural products and Ayurvedic oils."),
  (rxLits ["anuradhapura", "anuradhapura sacred city"],
   "Anuradhapura Sacred City is an ancient royal capital founded in the 4th century BC and is one of South Asia\u2019s greatest archaeological and spiritual centers. It is home to massive stupas, vast monastic complexes, and the revered Jaya Sri Maha Bodhi, believed to be the oldest historically documented tree in the world. The city showcases the height of early Sri Lankan engineering, including intricate irrigation systems and monumental architecture. Today, Anuradhapura is a UNESCO World Heritage Site and remains a major pilgrimage destination that reflects the island\u2019s deep Buddhist heritage."),
  (rxLits ["katugas ella", "katugasella", "katugas"],
   "Katugas Ella is a beautiful waterfall hidden within the lush greenery of Kegalle. It is known for its peaceful natural pool formed at the base of the falls. The surrounding forest provides a cool and refreshing atmosphere, making it perfect for short hikes and nature relaxation."),
  (rxAlts [rxSeq [rxStr "kegalle", Rx.wsStar, rxLits ["", "-"], Rx.wsStar, rxStr "pinnawala"], rxStr "pinnawala", rxStr "pinnawala elephant orphanage", rxStr "kegalle pinnawala elephant orphanage"],
   "The Pinnawala Elephant Orphanage is a sanctuary that cares for abandoned and injured elephants. Visitors can watch elephants being fed and bathed in the nearby river. It offers a rare opportunity to observe herds in a semi-natural environment. The orphanage plays a key role in elephant conservation in Sri Lanka and provides educational visits for visitors who want to learn about elephant care and rehabilitation."),
  (rxLits ["kitulgala", "kithulgala"],
   "Kitulgala is a scenic town famous for adventurous water activities, especially white-water rafting. Surrounded by dense rainforests, waterfalls and natural pools, the area is ideal for eco-tourism, birdwatching and hiking. It is also known as a filming location for \u2018The Bridge on the River Kwai\u2019."),
  (rxLits ["pahiyangala", "pahiyangala cave", "fahien cave", "fa-hien cave", "fa hien cave"],
   "Pahiyangala (Fa Hien Cave) is one of the largest natural rock caves in Asia and holds great archaeological importance. Named after the Chinese monk Fa Hien, excavations have revealed evidence of prehistoric human settlements. The cave\u2019s massive entrance and surrounding forest make it a stunning natural attraction."),
  (rxLits ["pelmadulla falls", "pelmadulla"],
   "Pelmadulla Falls refers to several picturesque waterfalls in the Pelmadulla area, where natural streams flow through rocky terrain and thick greenery. These falls offer peaceful picnic spots, cool waters and tranquil environments popular with nature lovers."),
  (rxLits ["saman dewalaya", "saman devalaya", "saman dewalaya sabaragamuwa"],
   "Saman Dewalaya is a major Buddhist temple in Sabaragamuwa dedicated to God Saman, a revered guardian deity of Sri Lanka. The shrine is known for its historic architecture and spiritual significance; devotees gather during the annual Saman Devala Perahera to participate in colorful processions."),
  (rxLits ["sinharaja", "sinharaja rain forest", "sinharaja rainforest"],
   "Sinharaja Rain Forest is Sri Lanka\u2019s last remaining primary tropical rainforest and a UNESCO World Heritage Site. It is exceptionally rich in biodiversity with many rare and endemic species. Guided nature trails offer a chance to explore its untouched canopy and unique wildlife."),
  (rxLits ["udawalawa elephant transit home", "udawalawa transit home", "elephant transit home udawalawe"],
   "The Udawalawe Elephant Transit Home rehabilitates orphaned baby elephants until they are fit to return to the wild. Visitors can observe feeding times from a safe distance; the facility focuses on minimal human contact to encourage natural behavior and supports national conservation efforts."),
  (rxLits ["udawalawe national park", "udawalawe national park", "udawalawe"],
   "Udawalawe National Park is one of the best places in Sri Lanka to see wild elephants in their natural habitat. The park\u2019s open grasslands, forests and reservoir create diverse ecosystems supporting elephants, water buffalo, deer, crocodiles and many bird species \u2014 making it ideal for safari tours."),
  (rxStr "isurumuniya",
   "Isurumuniya is a beautiful ancient rock temple in Anuradhapura known for its exquisite stone carvings. The famous \u2018Isurumuniya Lovers\u2019 sculpture is one of Sri Lanka\u2019s most iconic artworks. The temple combines natural rock formations with serene Buddhist architecture. Its peaceful atmosphere makes it a favorite spiritual and historical site."),
  (rxLits ["jaya sri maha bodhi", "jaya sri maha bodhiya", "jaya sri maha bodhi"],
   "The Jaya Sri Maha Bodhiya is one of the oldest living trees in the world with a recorded history. It is believed to be a sapling from the Bodhi tree under which Lord Buddha attained Enlightenment. Revered by millions, it is among the most sacred Buddhist sites in Sri Lanka. Devotees visit daily to offer prayers, flowers, and traditional rituals."),
  (rxLits ["kala wewa", "kalawewa", "kala wewa reservoir"],
   "Kala Wewa is a massive ancient reservoir built by King Dhatusena in the 5th century. It showcases the advanced engineering skills of ancient Sri Lankan civilization. The tank provides irrigation to large farming areas in the North Central Province. Its scenic surroundings and calm waters make it a peaceful getaway."),
  (rxLits ["kaudulla national park", "kaudulla"],
   "Kaudulla National Park is a wildlife sanctuary famous for its large herds of wild elephants. The park\u2019s lush landscapes and water sources attract animals throughout the year. Safari visitors often spot deer, peacocks, crocodiles, and many bird species. It is one of the best places in Sri Lanka to observe elephants in their natural habitat."),
  (rxStr "mihinthale",
   "Mihinthale is the sacred mountain where Buddhism was first introduced to Sri Lanka. It is considered the birthplace of Buddhism in the country. The site has ancient stupas, stone stairways, and panoramic viewpoints. Pilgrims and travellers visit to experience its deep spiritual and historical significance."),
  (rxLits ["minneriya national park", "minneriya"],
   "Minneriya National Park is home to the world-famous \u2018Gathering\u2019 of elephants, one of the largest yearly elephant gatherings. The Minneriya Tank attracts wildlife during the dry season, making it ideal for safaris. Visitors can see elephants, monkeys, reptiles, and many birds. The park\u2019s grasslands and forests offer a vibrant wildlife experience."),
  (rxLits ["parakrama samudra", "parakrama samudraya"],
   "Parakrama Samudra is a vast ancient reservoir built by King Parakramabahu the Great. It consists of several interconnected tanks forming one large water body. The famous saying \u2018Not even a drop of water should flow to the sea unused\u2019 reflects its purpose. Its surroundings are picturesque, especially during sunrise and sunset."),
  (rxLits ["pidurangala rock", "pidurangala"],
   "Pidurangala Rock is a popular hiking destination offering stunning views of Sigiriya Lion Rock. The climb is adventurous, with rocks and forest pathways. At the summit, travellers are rewarded with panoramic landscapes and peaceful views. It is a quieter and more natural alternative to climbing Sigiriya."),
  (rxLits ["polonnaruwa", "polonnaruwa ancient city"],
   "Polonnaruwa Ancient City is a UNESCO World Heritage Site filled with well-preserved ruins of palaces, temples, and statues. It was once a thriving royal capital of Sri Lanka. Highlights include the Gal Vihara Buddha statues and the Royal Palace complex. The city showcases the grandeur of medieval Sri Lankan architecture."),
  (rxStr "ritigala",
   "Ritigala is a mysterious forest-covered mountain with ancient monastic ruins. The site is known for its cool climate and unique biodiversity compared to the surrounding dry zone. Ancient meditation pathways and stone structures reveal its monastic history. Its peaceful, untouched environment gives it an almost mythical atmosphere."),
  (rxLits ["ruwanweliseya", "ruwanwelisaya", "ruwan weliseya"],
   "Ruwanweliseya is one of the most revered stupas in Sri Lanka, built by King Dutugemunu. Its large white dome symbolizes purity and Buddhist devotion. The stupa holds great historical and religious significance for Buddhists worldwide. Thousands of pilgrims visit each year to pay homage."),
  (rxLits ["thuparamaya", "thuparamaya stupa"],
   "Thuparamaya is the earliest documented Buddhist stupa in Sri Lanka, built during King Devanampiya Tissa\u2019s reign. It is believed to enshrine the sacred right collarbone relic of Lord Buddha. The stupa\u2019s distinctive \u2018vata-da-ge\u2019 structure of stone pillars surrounds it. It remains an important pilgrimage site with deep cultural value."),
  (rxLits ["nuwara eliya", "little england"],
   "Nuwara Eliya (\u2018Little England\u2019) is a cool hill station known for colonial-era architecture, tea plantations, lakes and gardens \u2014 a romantic and scenic mountain retreat."),
  (rxLits ["horton plains", "world\u0027s end", "worlds end"],
   "Horton Plains National Park features misty grasslands and the famous \u2018World\u2019s End\u2019 cliff with an 870m drop. Early morning visits are best to avoid fog and to see sweeping views and Baker\u2019s Falls."),
  (rxStr "gregory lake",
   "Gregory Lake is a central reservoir in Nuwara Eliya offering boat rides, water sports, horse rides and lakeside picnics with well-maintained walking paths and lively evenings."),
  (rxStr "victoria park",
   "Victoria Park is one of Sri Lanka\u2019s oldest parks featuring flowers, ponds and shaded walkways; it\u2019s especially colorful during the flowering season and popular with birdwatchers."),
  (rxLits ["lovers\u0027 leap", "lovers leap"],
   "Lovers\u2019 Leap Waterfall is a tall, narrow fall framed by tea estates and a local legend; the short trek offers scenic valley views and a peaceful setting."),
  (rxStr "moon plains",
   "Moon Plains is an open grassland with panoramic 360-degree mountain views and a \u2018Mini World\u2019s End\u2019 viewpoint overlooking deep valleys \u2014 ideal for photography and quiet walks."),
  (rxStr "bomburu ella",
   "Bomburu Ella is a wide, multi-cascade waterfall offering impressive views; the hike through forests and streams makes it a rewarding eco-tourism destination."),
  (rxLits ["diyaluma", "diyaluma falls", "diyaluma waterfall"],
   "Diyaluma Falls is the second-highest waterfall in Sri Lanka, standing at about 220 meters near Koslanda in the Badulla District. It is famous for its multi-tier cascading streams and the natural infinity pools at the top, where visitors can swim while enjoying breathtaking views of the surrounding mountains and valleys. The hike to the upper pools is relatively easy and offers one of the most scenic waterfall experiences in the country."),
  (rxLits ["dunhinda", "dunhinda falls", "dunhinda waterfall"],
   "Dunhinda Falls is one of Sri Lanka\u2019s most beautiful waterfalls, located near Badulla in the Uva Province. The waterfall is about 64 meters high and is famous for the misty spray created as the water crashes down\u2014this mist inspired the name \u2018Dunhinda\u2019 meaning \u2018smoky waterfall\u2019. Visitors walk a scenic jungle path to the viewpoint, enjoying small streams and wildlife along the way. It\u2019s a peaceful, picturesque location popular among both tourists and locals."),
  (rxLits ["haputale", "haputhale", "haputae", "haputale"],
   "Haputale is a cool, misty mountain town in the Badulla District, famous for its stunning viewpoints and lush green tea estates. Located on the southern edge of Sri Lanka\u2019s hill country at over 1,400 meters above sea level, it offers refreshing weather and dramatic scenery. The town is surrounded by Lipton\u0027s Seat, Adisham Bungalow, and sprawling plantations that create some of the country\u2019s most scenic train rides. Haputale is peaceful, nature-rich, and perfect for hiking, photography, and enjoying quiet hill-country life."),
  (rxAlts [rxSeq [rxStr "lipton", rxLits ["", "\u0027"], rxStr "s", Rx.wsStar, rxStr "seat"], rxSeq [rxStr "liptons", Rx.wsStar, rxStr "seat"], rxStr "lipton seat"],
   "Lipton\u0027s Seat is a famous viewpoint in the Haputale hills, rising to about 1,970 meters above sea level. Named after Sir Thomas Lipton, who used it to view his Dambatenne tea plantation, the lookout provides sweeping panoramas of misty tea fields, undulating hills and distant lakes on clear mornings. The route to the viewpoint \u2014 a scenic trek or short tuk\u2011tuk ride through lush tea estates \u2014 is part of the experience and adds to its charm."),
  (rxAlts [rxSeq [rxStr "little", Rx.wsStar, rxStr "adam", rxLits ["", "\u0027"], rxLits ["", "s"], Rx.wsStar, rxStr "peak"], rxSeq [rxStr "little", Rx.wsStar, rxStr "adam"]],
   "Little Adam\u2019s Peak, located in Ella in the Badulla District, is one of Sri Lanka\u2019s most popular and easily accessible hiking spots. The trail is short and beginner-friendly, offering stunning panoramic views of rolling hills, tea plantations, and surrounding valleys; the summit provides a peaceful atmosphere with spectacular sunrise and sunset scenes. It\u2019s an ideal hike for travelers seeking a rewarding climb without high difficulty."),
  (rxAlts [rxStr "namunukula", rxSeq [rxStr "nam", rxLits ["", "u"], rxStr "nukula", Rx.wsStar, rxStr "mountain"]],
   "Namunukula Mountain, located near Ella and Badulla, is a prominent peak known for its nine summits and panoramic views over the Uva Province. The trek offers a mix of pine forests, grasslands, and misty cloud forests, and is popular among hikers for its peaceful, untouched natural setting. From the top, visitors can enjoy breathtaking sunrise and sunset views."),
  (rxLits ["okkampitiya", "okkampitiya archaeological", "okkampitiya site"],
   "The Okkampitiya Archaeological Site in Monaragala is an ancient heritage area linked to early Buddhist settlements. The site contains ruins of old monasteries, stone pillars and artifacts that reflect the region\u2019s historical significance. It\u2019s a quiet, less-visited site ideal for exploring Sri Lanka\u2019s early cultural history and archaeological context."),
  (rxAlts [rxSeq [rxStr "ravana", Rx.wsStar, rxStr "cave"], rxSeq [rxStr "ravana", rxLits ["", "\u0027"], rxLits ["", "s"], Rx.wsStar, rxStr "cave"]],
   "Ravana Cave near Ella is a small limestone cave associated with the legend of King Ravana from the Ramayana. Access requires climbing a steep stairway through a forested path; inside you\u2019ll find narrow passages and rock formations that lend a mysterious atmosphere. It\u2019s a popular cultural stop when exploring Ravana heritage sites."),
  (rxAlts [rxSeq [rxStr "ravana", Rx.wsStar, rxStr "falls"], rxSeq [rxStr "ravana", Rx.wsStar, rxStr "fall"]],
   "Ravana Falls is one of Sri Lanka\u2019s most famous waterfalls, cascading in multiple tiers from the Ella mountain range. The falls are especially scenic during the rainy season and are easily accessible from the Ella\u2013Wellawaya road, making them popular with visitors who enjoy the cool mist and natural rock pools nearby."),
  (rxLits ["st. clair", "devon falls", "st clair"],
   "St. Clair\u2019s and Devon Falls are two of Sri Lanka\u2019s most photographed waterfalls, offering dramatic views along the Hatton\u2013Nuwara Eliya road with excellent photo vantage points."),
  (rxLits ["pidurutalagala", "mount pidurutalagala"],
   "Pidurutalagala is Sri Lanka\u2019s highest mountain (2,524m) with restricted summit access; on clear days it offers sweeping highland views and cool mountain air."),
  (rxStr "ramboda falls",
   "Ramboda Falls is a multi-layered waterfall near the Ramboda Pass surrounded by tea estates and forests \u2014 a scenic stop on routes to Nuwara Eliya."),
  (rxLits ["bluefield", "pedro tea", "pedro estate"],
   "Bluefield and Pedro Tea Estates offer guided tours of tea cultivation and processing, tea tastings, and scenic views across rolling hills and misty tea country."),
  (rxStr "galle fort",
   "Galle Fort is a UNESCO World Heritage Site first built by the Portuguese and later expanded by the Dutch in the 17th century. It\u2019s a living colonial town with narrow cobbled streets, churches, museums, boutique cafes, old mansions and ocean ramparts \u2014 ideal for strolling, exploring history and watching sunsets from the walls."),
  (rxLits ["unawatuna beach", "unawatuna"],
   "Unawatuna Beach is a popular golden-sand beach with calm shallow waters perfect for swimming, snorkeling and beginner diving. The shoreline is lined with beach restaurants and guesthouses, producing a lively evening atmosphere."),
  (rxStr "jungle beach",
   "Jungle Beach is a small secluded bay tucked between forested hills near Unawatuna, with turquoise water ideal for snorkeling and kayaking \u2014 a peaceful alternative to busier beaches."),
  (rxStr "japanese peace pagoda",
   "The Japanese Peace Pagoda is a serene white stupa built by Japanese Buddhist monks, located on a hill between Unawatuna and Jungle Beach. It symbolizes peace and offers panoramic coastal views including Galle Fort and nearby lighthouses."),
  (rxLits ["koggala lake", "koggala"],
   "Koggala Lake is a freshwater lake surrounded by cinnamon plantations, small islands, temples and rich birdlife. Boat rides to Cinnamon Island, spice gardens and hermitages are popular activities."),
  (rxLits ["mirissa beach", "mirissa"],
   "Mirissa Beach is a crescent-shaped, turquoise-sanded beach known for surfing, a lively nightlife, beachfront restaurants and as a departure point for whale-watching tours."),
  (rxStr "secret beach",
   "Secret Beach (near Mirissa) is a quiet, hidden cove with coconut trees, shallow lagoons and rock pools \u2014 a peaceful spot for photography and relaxation."),
  (rxStr "coconut hill",
   "Coconut Hill is a scenic headland of leaning coconut palms known for dramatic sunset photography and sweeping coastal views."),
  (rxLits ["whale watching", "whale watching mirissa", "mirissa whale"],
   "Mirissa is one of the world\u2019s top whale-watching spots; early-morning boat tours commonly sight blue whales, sperm whales and dolphins during peak season (November\u2013April)."),
  (rxLits ["hikkaduwa coral", "hikkaduwa coral sanctuary"],
   "Hikkaduwa Coral Sanctuary protects colorful coral reefs and tropical fish; snorkeling provides close encounters with marine life and sometimes sea turtles."),
  (rxStr "hikkaduwa beach",
   "Hikkaduwa Beach is a surfing and water-sports hotspot with lively seafood dining, nightlife and a mix of backpacker and luxury offerings."),
  (rxLits ["dodanduwa turtle", "dodanduwa"],
   "Dodanduwa Turtle Hatchery is a conservation project protecting rescued turtle eggs and releasing hatchlings; visitors learn about sea turtle rehabilitation and conservation efforts."),
  (rxLits ["tangalle beach", "tangalle"],
   "Tangalle Beach is a long, quiet coastline with turquoise water, soft golden sand, luxury resorts and lagoon tours \u2014 ideal for relaxation and romantic stays."),
  (rxLits ["rekawa", "rekawa turtle"],
   "Rekawa Beach is a key turtle-nesting site where guided night tours allow visitors to witness nesting sea turtles and conservation activities."),
  (rxStr "mulkirigala",
   "Mulkirigala Rock Temple is an ancient cave temple complex atop a 200m rock with murals, reclining Buddha statues and panoramic summit views."),
  (rxStr "kalametiya",
   "Kalametiya Bird Sanctuary is a coastal wetland of lagoons and mangroves supporting 150+ bird species; boat safaris are popular for birdwatching and photography."),
  (rxLits ["ridgeway safari", "hambantota ridgeway"],
   "Ridgeway Safari (Hambantota) is a quieter nature safari across wetlands and scrublands where visitors can spot deer, peacocks, reptiles and migratory birds."),
  (rxStr "bundala",
   "Bundala National Park is a UNESCO biosphere reserve famed for large flocks of flamingos, storks, crocodiles, elephants and diverse birdlife \u2014 a paradise for birdwatchers."),
  (rxStr "yala national park",
   "Yala National Park (southern access) is Sri Lanka\u2019s most famous wildlife park, known for its high density of leopards and diverse wildlife including elephants and sloth bears."),
  (rxStr "kirinda",
   "Kirinda Beach & Temple is a coastal Buddhist shrine on rocky cliffs offering sweeping ocean views; the quiet nearby beach is ideal for contemplation."),
  (rxLits ["hambantota birds research", "hambantota birds"],
   "Hambantota Birds Research Center focuses on bird conservation, breeding and field research, supporting endangered species and public education."),
  (rxStr "nilaveli",
   "Nilaveli Beach is an east-coast gem known for long stretches of soft white sand and calm turquoise waters ideal for swimming, snorkeling and relaxing \u2014 family-friendly and often ranked among the top beaches on the east coast."),
  (rxStr "uppuveli",
   "Uppuveli Beach is a laid-back shore near Trincomalee popular with backpackers and divers, featuring wide sandy beaches, dive centers and a relaxed seaside atmosphere."),
  (rxStr "pigeon island",
   "Pigeon Island National Park, off Nilaveli, is one of Sri Lanka\u2019s marine national parks with coral reefs, colorful reef fish, turtles and excellent snorkeling and underwater photography spots."),
  (rxStr "koneswaram",
   "Koneswaram Temple is a historic Hindu shrine perched on Swami Rock overlooking the Indian Ocean \u2014 famed for its thousand-pillared architecture, priceless sea views and ties to ancient legends."),
  (rxStr "fort frederick",
   "Fort Frederick, built by the Portuguese in 1623 and later used by the Dutch and British, houses Koneswaram Temple and colonial structures; sambar deer occasionally roam the grounds."),
  (rxStr "marble beach",
   "Marble Beach is a pristine, glass-clear bay managed by the Sri Lankan Air Force \u2014 extremely clean, peaceful and ideal for swimming and quiet relaxation."),
  (rxLits ["trincomalee hot wells", "hot wells"],
   "Trincomalee Hot Wells (Kanniyai) feature seven natural hot water wells with varying temperatures that attract pilgrims and visitors seeking cultural bathing rituals and relaxation."),
  (rxLits ["pasikuda", "pasikudah"],
   "Pasikuda Beach is famed for its exceptionally shallow lagoon stretching hundreds of meters, making it very safe for swimming and popular with family-friendly resorts and watersports."),
  (rxStr "kalkuda",
   "Kalkuda Beach, south of Pasikuda, offers a quieter and more peaceful environment with wide sandy shores and calm seas ideal for long walks and sunsets."),
  (rxStr "batticaloa lagoon",
   "Batticaloa Lagoon is a large mangrove-rich lagoon system known for its fishing communities, birdlife and the unique \u2018singing fish\u2019 phenomenon; boat tours explore islands and local life."),
  (rxStr "batticaloa fort",
   "Batticaloa Fort, originally built by the Portuguese in 1628 and expanded by the Dutch, sits between the lagoon and sea and contains colonial-era bastions and scenic waterfront views."),
  (rxStr "arugam bay",
   "Arugam Bay is a world-class surfing destination with top right-hand breaks, attracting surfers, backpackers and eco-tourists; the surrounding landscape includes lagoons and wildlife."),
  (rxStr "elephant rock",
   "Elephant Rock (Arugam Bay) is an iconic granite outcrop rising from the coast offering short hikes and panoramic views; it\u2019s a popular sunset viewpoint and occasionally sighting area for elephants."),
  (rxStr "peanut farm beach",
   "Peanut Farm Beach is a secluded stretch south of Arugam Bay favored for intermediate surfing, camping and quiet coastal scenery with rock formations and lagoons."),
  (rxLits ["kumana national park", "kumana"],
   "Kumana National Park is a southeastern bird and wildlife sanctuary known for nesting and migratory birds, elephants, leopards and coastal wetlands \u2014 a quieter alternative to busier parks."),
  (rxStr "okanda",
   "Okanda Beach & Temple is a sacred site on the eastern coast linked to Kataragama pilgrimage routes, known for rugged coastal scenery and traditional devotional activities."),
  (rxStr "gal oya",
   "Gal Oya National Park is Sri Lanka\u2019s unique boat-safari park where elephants swim between islands in the Senanayake Samudraya reservoir; it features forests, wildlife tours and village visits."),
  (rxStr "senanayake samudraya",
   "Senanayake Samudraya is Sri Lanka\u2019s largest reservoir surrounded by mountains and forests, offering boating, wildlife observation and scenic photography \u2014 sometimes elephants are spotted along the shore."),
  (rxLits ["jaffna fort", "jaffna"],
   "Jaffna Fort, originally built by the Portuguese in 1618 and later expanded by the Dutch and British, is one of Sri Lanka\u2019s largest and best-preserved forts. Surrounded by water and star-shaped ramparts, it offers insights into colonial military architecture and expansive lagoon views."),
  (rxLits ["nallur kovil", "nallur kovil"],
   "Nallur Kovil is one of the most important Hindu temples in Sri Lanka, dedicated to Lord Murugan. The temple features a magnificent golden gopuram (tower), daily pujas, traditional Tamil ceremonies and a large annual festival drawing thousands of devotees."),
  (rxLits ["jaffna public library", "public library"],
   "The Jaffna Public Library is a cultural symbol of the region, known for classical architecture and a once-vast collection of books. Destroyed in 1981 and rebuilt, it stands for knowledge, resilience and the intellectual history of northern Sri Lanka."),
  (rxStr "casuarina beach",
   "Casuarina Beach on Karainagar Island is famed for Casuarina trees lining the shore, shallow calm waters and powdery sands \u2014 a clean, family-friendly beach ideal for swimming and relaxation."),
  (rxLits ["keerimalai", "keerimalai holy springs"],
   "Keerimalai Holy Springs are natural freshwater springs adjacent to the sea, believed to have healing powers. The sacred bathing pool and nearby temples attract pilgrims and visitors for ritual bathing."),
  (rxLits ["nagadeepa", "nagadeepa temple", "nainativu"],
   "Nagadeepa Temple on Nainativu Island is an important Buddhist pilgrimage site said to have been visited by the Buddha. Accessible by boat, the island hosts sacred shrines and a serene pilgrimage atmosphere."),
  (rxLits ["delft island", "delft"],
   "Delft Island is a remote island with Dutch colonial remnants, baobab trees, wild horses and salt plains. Its rugged, sparsely populated landscape offers a step-back-in-time experience."),
  (rxLits ["nagarkovil", "nagar kovil"],
   "Nagarkovil (Nagar Kovil) Beach is a quiet stretch known for clear waters and serene surroundings \u2014 popular for evening walks and local fishing activities."),
  (rxStr "point pedro",
   "Point Pedro is the northernmost point of Sri Lanka, marked by a lighthouse and coastal viewpoint; the area features traditional fishing villages and open ocean horizons."),
  (rxLits ["charty beach", "charty jetty"],
   "Charty Beach (Charty Jetty Beach) is a picturesque local beach near Jaffna, ideal for swimming, relaxing and enjoying sunsets in a quiet setting."),
  (rxLits ["mannar island", "mannar"],
   "Mannar Island is a large dry-zone island connected by causeway, offering birdwatching, historical sites, salt pans and coastal habitats \u2014 a rewarding spot for nature and history lovers."),
  (rxLits ["doric at arippu", "arippu"],
   "Doric at Arippu are the ruins of the first British governor\u2019s residence built in the early 1800s; the crumbling coastal structure and ocean views make it a photogenic historical site."),
  (rxLits ["thiruketheeswaram", "thiruketheeswaram temple"],
   "Thiruketheeswaram Temple is a sacred Hindu shrine dedicated to Lord Shiva, with ancient roots in Tamil devotional tradition and ongoing ritual practices attracting pilgrims."),
  (rxAlts [rxSeq [rxStr "adam", rxLits ["", "\u0027"], rxStr "s", Rx.wsStar, rxStr "bridge"], rxSeq [rxStr "rama", rxLits ["", "\u0027"], rxStr "s", Rx.wsStar, rxStr "bridge"]],
   "Adam\u2019s Bridge (Rama\u2019s Bridge) is a chain of submerged sandbars and shoals between Mannar and India, steeped in myth and natural history; it\u2019s a striking feature for photography and coastal ecology."),
  (rxStr "mullaitivu beach",
   "Mullaitivu Beach is a quiet, largely undeveloped coastline with wide sands and strong waves \u2014 a reflective place for long walks and coastal scenery."),
  (rxLits ["vavuniya archaeological museum", "vavuniya museum"],
   "Vavuniya Archaeological Museum displays artifacts from northern civilizations including pottery, coins and inscriptions that highlight the region\u2019s multicultural past."),
  (rxStr "wilpattu",
   "Wilpattu National Park is Sri Lanka\u2019s largest and one of its oldest national parks, famous for its natural \u2018Willus\u2019 (rainwater lakes), diverse wildlife including leopards, elephants, sloth bears, crocodiles and over 200 bird species. Safaris here are quieter and more immersive than other parks."),
  (rxStr "kalpitiya",
   "Kalpitiya is an unspoiled coastal region known for calm beaches, world-class kitesurfing (May\u2013September), dolphin and whale watching in the lagoon, and a relaxed eco-resort atmosphere blending naturally with the environment."),
  (rxLits ["kalpitiya lagoon", "dolphin"],
   "Kalpitiya Lagoon is a top destination for wild dolphin watching, especially spinner dolphins. Early-morning boat tours often encounter large pods and the area also offers kayaking and calm waters for paddle sports."),
  (rxLits ["kalpitiya dutch fort", "kalpitiya fort"],
   "The Kalpitiya Dutch Fort, built in the 17th century, features coral-stone walls and bastions used historically to control trade across the lagoon; it offers a compact but insightful look into colonial maritime history."),
  (rxLits ["munneswaram temple", "munneshwaram"],
   "Munneswaram Temple is a major Hindu pilgrimage complex dedicated mainly to Lord Shiva, with a history spanning centuries and rich festival traditions including the vibrant Munneswaram Festival."),
  (rxLits ["chilaw beach", "chilaw"],
   "Chilaw Beach is a local favorite near the town of Chilaw, offering calm seas, evening strolls and scenic sunsets often visited alongside nearby Munneswaram Temple."),
  (rxStr "kudawa",
   "Kudawa Beach (Kalpitiya) is a popular kitesurfing spot with seasonal winds, lagoon views and a laid-back adventure atmosphere supported by kite schools and eco-lodges."),
  (rxStr "yapahuwa",
   "Yapahuwa Rock Fortress was a 13th-century capital built atop a granite rock with a dramatic steep staircase leading to palace ruins, carvings and panoramic summit views \u2014 an impressive archaeological site."),
  (rxStr "kurunegala lake",
   "Kurunegala Lake is an urban reservoir with walking paths, landscaped areas and viewpoints; locals enjoy evening strolls, jogging and dining near the lakeside restaurants."),
  (rxLits ["athugala", "elephant rock"],
   "Athugala (Elephant Rock) is a massive hill resembling a resting elephant, with a climb to a white Buddha and panoramic views of Kurunegala and surrounding countryside."),
  (rxStr "panduwasnuwara",
   "Panduwasnuwara Ruins are the remains of an ancient capital featuring palaces, moats, monasteries and stone foundations that offer a quiet glimpse into early Sri Lankan royal civilization."),
  (rxLits ["ridi viharaya", "ridi"],
   "Ridi Viharaya (Silver Temple) is an ancient temple complex with frescoes, carved stairways, rock caves and image houses, historically tied to the Ruwanweliseya construction through silver offerings."),
  (rxLits ["munneshwaram kali", "kali kovil"],
   "Munneshwaram Kali Kovil (Kali Kovil) is part of the Munneswaram complex dedicated to Goddess Kali; it\u2019s known for vibrant rituals, drumming and devotional festivals.")
]

/-- The `manualTextOverrides` record of the detail page (normalised-key exact matches). -/
def manualTextOverrides5 : List (String × String) := [
  ("kegallepinnawalaelephanthorphanage", "The Pinnawala Elephant Orphanage is a sanctuary that cares for abandoned and injured elephants. Visitors can watch elephants being fed and bathed in the nearby river. It offers a rare opportunity to observe herds in a semi-natural environment. The orphanage plays a key role in elephant conservation in Sri Lanka."),
  ("kegallepinnawelaelephanthorphanage", "The Pinnawala Elephant Orphanage is a sanctuary that cares for abandoned and injured elephants. Visitors can watch elephants being fed and bathed in the nearby river. It offers a rare opportunity to observe herds in a semi-natural environment. The orphanage plays a key role in elephant conservation in Sri Lanka."),
  ("pinnawelaelephanthorphanage", "The Pinnawala Elephant Orphanage is a sanctuary that cares for abandoned and injured elephants. Visitors can watch elephants being fed and bathed in the nearby river. It offers a rare opportunity to observe herds in a semi-natural environment. The orphanage plays a key role in elephant conservation in Sri Lanka."),
  ("pinnawela", "The Pinnawala Elephant Orphanage is a sanctuary that cares for abandoned and injured elephants. Visitors can watch elephants being fed and bathed in the nearby river. It offers a rare opportunity to observe herds in a semi-natural environment. The orphanage plays a key role in elephant conservation in Sri Lanka."),
  ("pinnawalaelephanthorphanage", "The Pinnawala Elephant Orphanage is a sanctuary that cares for abandoned and injured elephants. Visitors can watch elephants being fed and bathed in the nearby river. It offers a rare opportunity to observe herds in a semi-natural environment. The orphanage plays a key role in elephant conservation in Sri Lanka.")
]

/-- The `fallbackSnippets` pattern table of the list view, one `(pattern, text)` pair per entry, in source order. -/
def fallbackSnippets : List (Rx × String) := [
  (rxStr "galle face",
   "Galle Face Green \u2014 oceanfront promenade popular for evening walks, street food like isso wade and kottu, kite flying, and sunsets."),
  (rxStr "lotus tower",
   "Lotus Tower \u2014 350m landmark with a panoramic observation deck, dining, exhibitions, and colorful night lighting."),
  (rxLits ["independence square", "independence arcade"],
   "Independence Square \u2014 a national monument with peaceful gardens and the nearby Independence Arcade of shops and restaurants."),
  (rxLits ["colombo national museum", "national museum"],
   "National Museum \u2014 showcases Sri Lanka\u2019s heritage with royal regalia, statues, and shaded grounds for educational visits."),
  (rxStr "dutch hospital",
   "Dutch Hospital \u2014 restored colonial precinct now a lively dining and shopping complex with preserved architecture."),
  (rxStr "mount lavinia",
   "Mount Lavinia Beach \u2014 golden sand shore known for seafood restaurants, swimming, and vibrant nightlife."),
  (rxLits ["dehiwala zoo", "zoo"],
   "Dehiwala Zoo \u2014 historic zoological garden with diverse animals, daily shows, and a butterfly garden."),
  (rxStr "diyatha uyana",
   "Diyatha Uyana \u2014 lakeside park with walking paths, ponds, open-air restaurants, and a weekend market."),
  (rxStr "beddagana",
   "Beddagana Wetland Park \u2014 conserved wetland with elevated paths for birdwatching and nature walks."),
  (rxStr "attidiya",
   "Attidiya Bird Sanctuary \u2014 wetland sanctuary ideal for birdwatching and peaceful nature visits."),
  (rxLits ["kelaniya", "kelaniya raja maha viharaya"],
   "Kelaniya Temple \u2014 sacred site known for stunning murals and annual Duruthu Perahera procession."),
  (rxStr "negombo beach",
   "Negombo Beach \u2014 long sandy coastline popular for sunsets, water sports and nearby markets."),
  (rxStr "negombo lagoon",
   "Negombo Lagoon \u2014 expansive brackish-water ecosystem with mangroves and boat tours."),
  (rxStr "hamilton canal",
   "Hamilton Canal \u2014 colonial-era canal offering scenic boat rides and views of village life."),
  (rxStr "muthurajawela",
   "Muthurajawela Wetlands \u2014 vast wetland ecosystem with rich biodiversity and boat tour options."),
  (rxLits ["kalutara bodhiya", "kalutara temple"],
   "Kalutara Bodhiya \u2014 riverside Buddhist shrine with a large white stupa and devotional atmosphere."),
  (rxStr "richmond castle",
   "Richmond Castle \u2014 elegant early 1900s mansion notable for carved woodwork and picturesque gardens."),
  (rxStr "kalutara beach",
   "Kalutara Beach \u2014 wide sandy beach popular for resorts and peaceful seaside relaxation."),
  (rxStr "moragalla",
   "Moragalla Beach \u2014 calm shallow beach ideal for snorkeling and peaceful escapes."),
  (rxLits ["barberyn", "beruwala lighthouse", "barberyn island"],
   "Beruwala (Barberyn) Island \u2014 historic lighthouse island accessible by a short boat ride."),
  (rxStr "kande viharaya",
   "Kande Viharaya \u2014 large temple famous for its giant Buddha statue and meditation spaces."),
  (rxStr "thudugala",
   "Thudugala Waterfall \u2014 a scenic waterfall with a shallow natural pool and forest trails."),
  (rxLits ["horana lakshapana", "lakshapana tea museum"],
   "Horana Lakshapana Tea Museum \u2014 museum showcasing the tea industry and tasting experiences."),
  (rxLits ["temple of the tooth", "dalada maligawa", "tooth relic"],
   "Temple of the Tooth \u2014 Sri Dalada Maligawa, a sacred Kandyan temple housing the tooth relic and hosting the Esala Perahera festival."),
  (rxLits ["kandy lake", "sea of milk"],
   "Kandy Lake \u2014 scenic lakeside walkway ideal for peaceful walks, birdwatching and photography in the heart of Kandy."),
  (rxLits ["peradeniya botanical", "peradeniya garden"],
   "Peradeniya Botanical Garden \u2014 Sri Lanka\u2019s largest botanical garden with orchids, Royal Palms and ancient fig trees."),
  (rxLits ["udawatte kele", "udawatta kele"],
   "Udawatte Kele \u2014 historic forest reserve behind the Temple of the Tooth with shaded trails and diverse birdlife."),
  (rxLits ["knuckles", "knuckles mountain"],
   "Knuckles Range \u2014 misty peaks and deep valleys offering hiking routes, waterfalls and cloud-forest scenery."),
  (rxStr "hunnasgiriya",
   "Hunnasgiriya \u2014 cool mountain offering panoramic views of tea plantations and a peaceful hiking spot."),
  (rxStr "sembuwatta",
   "Sembuwatta Lake \u2014 picturesque man-made lake with turquoise water, pine forests and paddle boating options."),
  (rxStr "ambuluwawa",
   "Ambuluwawa Tower \u2014 spiral tower with a biodiversity complex and panoramic 360\u00b0 views after a short climb."),
  (rxStr "riverston",
   "Riverston \u2014 windy scenic plateau in the Knuckles region known for dramatic viewpoints and photography."),
  (rxLits ["bambarakiri", "bambarakiri ella"],
   "Bambarakiri Ella \u2014 picturesque waterfall with a hanging bridge and lush surroundings."),
  (rxStr "nalanda gedige",
   "Nalanda Gedige \u2014 ancient stone temple blending Hindu and Buddhist styles with mysterious ruins."),
  (rxLits ["balangoda", "fahien", "fa-hien", "fa hien", "fa-hien cave", "fa hien cave"],
   "Balangoda Caves (Fa-Hien Cave) \u2014 major prehistoric cave site where evidence of early human settlement (the \u2018Balangoda Man\u2019) and tools dating back over 38,000 years were found; dramatic rock overhang and forest setting make it an important archaeological and heritage site."),
  (rxLits ["bogoda", "bogoda wooden bridge"],
   "Bogoda Wooden Bridge \u2014 one of Sri Lanka\u2019s oldest surviving timber bridges dating to the Kandyan era; built without nails and featuring carved wooden pillars beside the historic Bogoda Raja Maha Viharaya."),
  (rxSeq [rxLits ["abhyagiri", "abhyagiriya", "abhayagiri", "abhayagiriya", "abayagiri", "abhayagiri"], Rx.opt (rxSeq [Rx.wsStar, rxLits ["stupa", "vihara", "temple", "monastery"]])],
   "Abhayagiri Stupa \u2014 sprawling monastery complex once home to thousands of monks, notable for its massive stupa, ornate carvings, and ancient monastic ruins reflecting its role as a major Buddhist university."),
  (rxLits ["aluvihare", "aluvihare rock temple"],
   "Aluvihare Rock Temple \u2014 historic cave temple where the Tripitaka was first written down on palm leaves."),
  (rxLits ["avukana", "aukana", "avukana buddha", "aukana buddha", "avukana statue"],
   "Avukana Buddha Statue \u2014 a 40-foot granite standing Buddha from the 5th century, famed for its exquisite carving, Asisa Mudra posture, and serene setting near Kala Wewa."),
  (rxLits ["matale spice", "spice gardens"],
   "Matale Spice Gardens \u2014 guided spice tours showcasing cinnamon, pepper, cardamom and local Ayurvedic products."),
  (rxLits ["anuradhapura", "anuradhapura sacred city"],
   "Anuradhapura Sacred City \u2014 ancient royal capital founded in the 4th century BC, home to massive stupas, monastic complexes, and the Jaya Sri Maha Bodhi; a UNESCO World Heritage Site and major pilgrimage center."),
  (rxLits ["nuwara eliya", "little england"],
   "Nuwara Eliya \u2014 cool hill station with colonial charm, tea plantations and well-kept gardens."),
  (rxLits ["horton plains", "world\u0027s end", "worlds end"],
   "Horton Plains \u2014 national park with misty grasslands and \u2018World\u2019s End\u2019 cliff offering dramatic highland views."),
  (rxStr "gregory lake",
   "Gregory Lake \u2014 central reservoir in Nuwara Eliya with boat rides, water sports and lakeside recreation."),
  (rxStr "victoria park",
   "Victoria Park \u2014 historic garden with colorful seasonal flowers and good birdwatching opportunities."),
  (rxLits ["lovers\u0027 leap", "lovers leap"],
   "Lovers\u2019 Leap Waterfall \u2014 tall waterfall with scenic views and a romantic local legend."),
  (rxStr "moon plains",
   "Moon Plains \u2014 open grasslands with panoramic mountain views and a \u2018Mini World\u2019s End\u2019 viewpoint."),
  (rxStr "bomburu ella",
   "Bomburu Ella \u2014 wide multi-cascade waterfall reached by a scenic hike through forests and streams."),
  (rxAlts [rxSeq [rxStr "bopath", Rx.wsStar, rxStr "ella"], rxLits ["bopathela", "bopathella", "bopathsela", "bopathsella"]],
   "Bopath Ella is a beautiful waterfall in Rathnapura, named for its unique shape that resembles a \"Bo leaf,\" making it one of Sri Lanka\u0027s most recognizable natural attractions. The waterfall cascades down a narrow stream that widens dramatically as it drops, creating a powerful and picturesque flow. Surrounded by lush forest and local village life, it is easily accessible and a popular stop for nature lovers. Today, Bopath Ella is both a scenic getaway and an important eco-tourism spot in the Sabaragamuwa region."),
  (rxLits ["st. clair", "devon falls", "st clair"],
   "St. Clair\u2019s & Devon Falls \u2014 two iconic waterfalls offering dramatic photographic vantage points."),
  (rxLits ["pidurutalagala", "mount pidurutalagala"],
   "Pidurutalagala \u2014 Sri Lanka\u2019s highest mountain with restricted access but exceptional highland views on clear days."),
  (rxStr "ramboda falls",
   "Ramboda Falls \u2014 scenic multi-tiered waterfall near the Ramboda Pass surrounded by tea estates."),
  (rxLits ["bluefield", "pedro tea", "pedro estate"],
   "Bluefield & Pedro Tea Estates \u2014 tea plantations offering tours, tastings and panoramic hill views."),
  (rxStr "galle fort",
   "Galle Fort \u2014 UNESCO World Heritage Site with cobbled streets, museums, boutique cafes and ocean ramparts ideal for sunset walks."),
  (rxStr "unawatuna",
   "Unawatuna Beach \u2014 golden sand and calm shallow seas ideal for swimming, snorkeling and lively beachfront dining."),
  (rxStr "jungle beach",
   "Jungle Beach \u2014 secluded cove with turquoise water perfect for snorkeling and relaxing away from crowds."),
  (rxStr "japanese peace pagoda",
   "Japanese Peace Pagoda \u2014 serene white stupa offering panoramic coastal views between Unawatuna and Jungle Beach."),
  (rxLits ["koggala lake", "koggala"],
   "Koggala Lake \u2014 scenic freshwater lake with cinnamon islands, spice gardens and birdwatching boat rides."),
  (rxStr "mirissa",
   "Mirissa Beach \u2014 crescent-shaped beach known for turquoise water, whale-watching tours, surfing and vibrant nightlife."),
  (rxStr "secret beach",
   "Secret Beach \u2014 quiet hidden beach with coconut trees, lagoons and natural pools near Mirissa."),
  (rxStr "coconut hill",
   "Coconut Hill \u2014 iconic headland lined with leaning coconut palms offering dramatic sunset photos."),
  (rxLits ["whale watching", "mirissa whale"],
   "Whale Watching (Mirissa) \u2014 world-class whale and dolphin tours departing early morning during peak season."),
  (rxLits ["hikkaduwa coral", "hikkaduwa coral sanctuary"],
   "Hikkaduwa Coral Sanctuary \u2014 protected reef offering snorkeling with colorful corals and tropical fish."),
  (rxStr "hikkaduwa beach",
   "Hikkaduwa Beach \u2014 surfing, seafood dining and a lively coastal scene popular with many travelers."),
  (rxStr "dodanduwa",
   "Dodanduwa Turtle Hatchery \u2014 conservation site protecting turtle eggs and releasing hatchlings to the sea."),
  (rxStr "tangalle",
   "Tangalle Beach \u2014 long quiet coastline with turquoise water and luxurious resorts for peaceful stays."),
  (rxStr "rekawa",
   "Rekawa Turtle Nesting Beach \u2014 important nesting site where guided night tours reveal turtle conservation in action."),
  (rxStr "mulkirigala",
   "Mulkirigala Rock Temple \u2014 ancient cave-temple complex atop a towering rock with murals and summit views."),
  (rxStr "kalametiya",
   "Kalametiya Bird Sanctuary \u2014 coastal wetland with mangroves and over 150 bird species, ideal for boat safaris."),
  (rxLits ["ridgeway safari", "hambantota ridgeway"],
   "Ridgeway Safari (Hambantota) \u2014 open-landscape safari for birds, deer and occasionally elephants away from crowded parks."),
  (rxStr "bundala",
   "Bundala National Park \u2014 UNESCO biosphere reserve noted for flamingos, storks, elephants and abundant birdlife."),
  (rxStr "yala national park",
   "Yala National Park \u2014 premier wildlife park famous for leopard sightings and diverse fauna on guided safaris."),
  (rxStr "kirinda",
   "Kirinda Beach & Temple \u2014 coastal shrine on rocky cliffs with sweeping ocean views and a quiet nearby beach."),
  (rxLits ["hambantota birds research", "hambantota birds"],
   "Hambantota Birds Research Center \u2014 bird conservation and research facility promoting endangered species protection."),
  (rxStr "nilaveli",
   "Nilaveli Beach \u2014 long soft white sands and calm turquoise waters ideal for swimming, snorkeling and relaxed family beach days."),
  (rxStr "uppuveli",
   "Uppuveli \u2014 laid-back beach near Trincomalee popular with divers, backpackers and relaxed seaside dining."),
  (rxStr "pigeon island",
   "Pigeon Island \u2014 marine park off Nilaveli with coral reefs, colorful fish and excellent snorkeling."),
  (rxStr "koneswaram",
   "Koneswaram Temple \u2014 dramatic cliff-top Hindu temple with breathtaking sea views and rich mythology."),
  (rxStr "fort frederick",
   "Fort Frederick \u2014 colonial fort housing Koneswaram Temple with historic bastions and coastal views."),
  (rxStr "marble beach",
   "Marble Beach \u2014 pristine glass-clear bay managed by the Air Force, perfect for quiet swimming and relaxation."),
  (rxLits ["trincomalee hot wells", "hot wells"],
   "Trincomalee Hot Wells \u2014 seven natural hot water wells known for varied temperatures and cultural bathing rituals."),
  (rxLits ["pasikuda", "pasikudah"],
   "Pasikuda \u2014 shallow, family-friendly lagoon waters stretching far out to sea with luxury resorts and watersports."),
  (rxStr "kalkuda",
   "Kalkuda \u2014 a quieter beach south of Pasikuda with wide sands and calm seas for long walks and sunsets."),
  (rxStr "batticaloa lagoon",
   "Batticaloa Lagoon \u2014 large mangrove-rich lagoon famous for the \u2018singing fish\u2019 and boat tours of islands and birdlife."),
  (rxStr "batticaloa fort",
   "Batticaloa Fort \u2014 17th-century fort with colonial bastions and scenic waterfront views between lagoon and sea."),
  (rxStr "arugam bay",
   "Arugam Bay \u2014 world-class surf destination with top right-hand breaks attracting surfers and backpackers."),
  (rxStr "elephant rock",
   "Elephant Rock \u2014 scenic granite viewpoint at Arugam Bay with great sunset views and nearby wildlife sightings."),
  (rxStr "peanut farm beach",
   "Peanut Farm Beach \u2014 secluded natural beach south of Arugam Bay good for surfing and camping."),
  (rxStr "kumana",
   "Kumana National Park \u2014 bird-rich sanctuary and wildlife park with wetlands, lagoons and coastal biodiversity."),
  (rxStr "okanda",
   "Okanda \u2014 sacred beach and temple on pilgrimage routes with rugged coastal scenery."),
  (rxStr "gal oya",
   "Gal Oya \u2014 unique park with boat safaris where elephants swim between islands in the reservoir."),
  (rxStr "senanayake samudraya",
   "Senanayake Samudraya \u2014 the nation\u2019s largest reservoir used for boating, wildlife observation and scenic photography."),
  (rxLits ["jaffna fort", "jaffna"],
   "Jaffna Fort \u2014 large, well-preserved colonial fort with star-shaped ramparts and lagoon views."),
  (rxStr "nallur kovil",
   "Nallur Kovil \u2014 important Hindu temple with a golden gopuram, daily pujas and major annual festivals."),
  (rxLits ["jaffna public library", "public library"],
   "Jaffna Public Library \u2014 rebuilt cultural landmark symbolizing knowledge and resilience."),
  (rxStr "casuarina beach",
   "Casuarina Beach \u2014 family-friendly shallow waters and powdery sands lined by Casuarina trees."),
  (rxStr "keerimalai",
   "Keerimalai Holy Springs \u2014 natural freshwater springs with sacred bathing pools believed to have healing powers."),
  (rxLits ["nagadeepa", "nainativu"],
   "Nagadeepa Temple \u2014 sacred Buddhist island shrine accessible by boat with deep religious significance."),
  (rxStr "delft island",
   "Delft Island \u2014 remote island with baobabs, wild horses and Dutch-era remnants."),
  (rxLits ["nagarkovil", "nagar kovil"],
   "Nagarkovil \u2014 quiet coastal beach ideal for peaceful walks and local fishing scenes."),
  (rxStr "point pedro",
   "Point Pedro \u2014 the northernmost point with lighthouse and coastal village scenery."),
  (rxLits ["charty beach", "charty jetty"],
   "Charty Beach \u2014 picturesque local beach near Jaffna with calm waters and sunsets."),
  (rxLits ["mannar island", "mannar"],
   "Mannar Island \u2014 dry-zone island with birdwatching, historical sites and salt pans."),
  (rxLits ["doric at arippu", "arippu"],
   "Doric at Arippu \u2014 ruins of an early British governor\u2019s residence in a dramatic coastal setting."),
  (rxStr "thiruketheeswaram",
   "Thiruketheeswaram \u2014 ancient Hindu temple with deep devotional importance and ancient traditions."),
  (rxAlts [rxSeq [rxStr "adam", rxLits ["", "\u0027"], rxStr "s", Rx.wsStar, rxStr "bridge"], rxSeq [rxStr "rama", rxLits ["", "\u0027"], rxStr "s", Rx.wsStar, rxStr "bridge"]],
   "Adam\u2019s Bridge \u2014 chain of sandbars and shoals between Mannar and India, notable for myth and coastal ecology."),
  (rxStr "mullaitivu beach",
   "Mullaitivu Beach \u2014 quiet undeveloped coastline with expansive sands and strong waves."),
  (rxLits ["vavuniya archaeological museum", "vavuniya museum"],
   "Vavuniya Archaeological Museum \u2014 regional exhibits of pottery, inscriptions and archaeological finds."),
  (rxStr "wilpattu",
   "Wilpattu National Park \u2014 large, lake-dotted wilderness famous for leopards, elephants, sloth bears and rich birdlife; safaris are quieter and more immersive."),
  (rxStr "kalpitiya",
   "Kalpitiya \u2014 relaxed coastal region known for kitesurfing, peaceful beaches and dolphin-watching tours in the lagoon."),
  (rxLits ["kalpitiya lagoon", "dolphin"],
   "Kalpitiya Lagoon \u2014 prime dolphin-watching and paddle-sport waters with morning boat tours."),
  (rxLits ["kalpitiya dutch fort", "kalpitiya fort"],
   "Kalpitiya Dutch Fort \u2014 17th-century coral-stone fort with colonial-era bastions and lagoon views."),
  (rxLits ["munneswaram", "munneswaram temple"],
   "Munneswaram Temple \u2014 major Hindu complex with rich festival traditions and pilgrimage activity."),
  (rxStr "chilaw",
   "Chilaw Beach \u2014 local seaside spot for evening walks, picnics and scenic sunsets."),
  (rxStr "kudawa",
   "Kudawa Beach \u2014 top kitesurfing spot within Kalpitiya with lagoon and island views."),
  (rxStr "yapahuwa",
   "Yapahuwa Rock Fortress \u2014 13th-century capital built on a granite rock with a steep stairway, palace ruins and summit panoramas."),
  (rxStr "kurunegala lake",
   "Kurunegala Lake \u2014 urban reservoir with walking paths, viewpoints and nearby caf\u00e9s."),
  (rxLits ["athugala", "elephant rock"],
   "Athugala (Elephant Rock) \u2014 iconic hill formation with a white Buddha statue and panoramic views of Kurunegala."),
  (rxStr "panduwasnuwara",
   "Panduwasnuwara Ruins \u2014 ancient capital remains with palaces, monasteries and archaeological features."),
  (rxLits ["ridi viharaya", "ridi"],
   "Ridi Viharaya \u2014 historic Silver Temple with frescoes, rock caves and ancient image houses."),
  (rxLits ["munneshwaram kali", "kali kovil"],
   "Munneshwaram Kali Kovil \u2014 vibrant shrine within Munneswaram complex known for colorful rituals and festivals.")
]

/-- The `manualTextOverrides` record of the list view. -/
def manualTextOverrides6 : List (String × String) := [
  ("diyalumafalls", "Diyaluma Falls is the second-highest waterfall in Sri Lanka, cascading from a height of 220 meters. It is surrounded by stunning mountain scenery and lush greenery. A natural pool at the base and several rock pools along the way make it ideal for adventurous swims. The falls are also popular among hikers, offering breathtaking views from the top.")
]
/-- Record lookup, modelling property access on a JS object literal with
string values. -/
def recLookup (m : List (String × String)) (k : String) : Option String :=
  (m.find? (fun p => p.1 = k)).map (·.2)

/-- `getFallback` of the detail page: a truthy manual override wins, then
the first matching fallback description, else `null`. -/
def getFallback (name : String) : Option String :=
  let key := normalizeForKey name
  match truthyS (recLookup manualTextOverrides5 key) with
  | some t => some t
  | none => (fallbackDescriptions.find? (fun f => rxTestI f.1 name)).map (·.2)

/-- `getSnippet` of the list view: a truthy manual override wins, then the
first pattern matching the name, then (for a truthy province name) the
first pattern matching the province, else the generated template sentence. -/
def getSnippet (name : String) (provinceName : Option String) : String :=
  let key := normalizeForKey name
  match truthyS (recLookup manualTextOverrides6 key) with
  | some t => t
  | none =>
  match fallbackSnippets.find? (fun f => rxTestI f.1 name) with
  | some f => f.2
  | none =>
  match (match truthyS provinceName with
         | some p => fallbackSnippets.find? (fun f : Rx × String => rxTestI f.1 p)
         | none => (none : Option (Rx × String))) with
  | some f => f.2
  | none =>
    let shortProvince := match truthyS provinceName with
      | some p => " in " ++ p
      | none => ""
    "Explore " ++ name ++ shortProvince ++
      ". Discover highlights, local culture, and visitor tips for this destination."

/-! ## Claim C6 -/

/-- C6: the normalisation functions fold known punctuation variants to
equal keys: the resolver normalisation identifies "St. Clair's" with
"st clairs", and the Matcher key normalisation identifies "Lovers' Leap"
with "lovers leap". -/
theorem c6_normalization_folds :
    normalize_mjs (JsStr.str "St. Clair's") = normalize_mjs (JsStr.str "st clairs") ∧
    normalizeForKey "Lovers' Leap" = normalizeForKey "lovers leap" :=
  ⟨rfl, rfl⟩

/-! ## Claim C7 -/

/-- Counterexample to C7: the script copy of `normalize`, applied to
`null`, returns the string "null", not the empty-string key (the default
parameter fires only on `undefined`, and `String(null)` is `"null"`). -/
theorem c7_cex : normalize_mjs JsStr.null = "null" ∧ ("null" : String) ≠ "" :=
  ⟨rfl, by decide⟩

/-- C7 (amended): the admin and list-view copies of `normalize` return the
empty-string key on both `null` and `undefined`; the script copy does so
on `undefined` but maps `null` to the key "null".  All copies are total
functions of their argument (never throw). -/
theorem c7_amended :
    normalize_mjs JsStr.undef = "" ∧ normalize_mjs JsStr.null = "null" ∧
    normalize_admin JsStr.null = "" ∧ normalize_admin JsStr.undef = "" ∧
    normalize_list JsStr.null = "" ∧ normalize_list JsStr.undef = "" :=
  ⟨rfl, rfl, rfl, rfl, rfl, rfl⟩

/-! ## Claim C1 -/

/-- C1 (amended): the script and admin-handler scoring functions agree on
every entity and are bounded by 6; the list-view scoring equals theirs
plus 3 exactly when the row carries `destination_images` entries, and is
bounded by 9.  Presence alone is not enough for the string fields: an
empty (or whitespace-only description) string contributes nothing. -/
theorem c1_amended (e : Entity) :
    scoreAdmin e = scoreScript e ∧
    scoreScript e ≤ 6 ∧
    scoreList e = scoreScript e + (if e.destination_images.length > 0 then 3 else 0) ∧
    scoreList e ≤ 9 := by
  unfold scoreAdmin scoreScript scoreList
  refine ⟨rfl, ?_, ?_, ?_⟩ <;> split_ifs <;> omega

/-- An entity with every scored attribute plus `destination_images`. -/
def c1EntityImgs : Entity :=
  { id := "a", name := some "Temple", description := some "d",
    province_id := some "p", image_url := some "u", location_lat := some 6,
    destination_images := [⟨"img", true⟩] }

/-- An entity whose `province_id` is present but the empty string. -/
def c1EntityEmptyProv : Entity := { id := "b", province_id := some "" }

/-- Counterexample to C1: the list-view score of a row with
`destination_images` is 9, outside the claimed range 0 to 6 and different
from the other two sites, so `destination_images` is a further
contributing field there; moreover a present-but-empty `province_id`
contributes nothing in the code although the claim's presence-based rule
awards it a point. -/
theorem c1_cex :
    scoreList c1EntityImgs = 9 ∧ scoreScript c1EntityImgs = 6 ∧
    ¬ scoreList c1EntityImgs ≤ 6 ∧
    scoreScript c1EntityEmptyProv = 0 ∧ scoreClaimC1 c1EntityEmptyProv = 1 := by
  refine ⟨rfl, rfl, by decide, rfl, rfl⟩

/-! ## Claims C4 and C10: characterising `findLocalImages` -/

theorem containsFrom_nil_needle (l : List Char) : containsFrom [] l = true := by
  cases l <;> simp [containsFrom, prefixOfChars]

theorem sContains_empty (s : String) : sContains s "" = true :=
  containsFrom_nil_needle s.data

theorem splitRunsAux_ne_nil :
    ∀ (l acc : List Char), ∀ r ∈ splitRunsAux acc l, r ≠ [] := by
  intro l
  induction l with
  | nil =>
      intro acc r hr
      simp only [splitRunsAux] at hr
      split at hr
      · simp at hr
      · next h =>
          simp only [List.mem_singleton] at hr
          subst hr
          simp only [ne_eq, List.reverse_eq_nil_iff]
          simpa [List.isEmpty_iff] using h
  | cons c t ih =>
      intro acc r hr
      simp only [splitRunsAux] at hr
      split at hr
      · exact ih _ r hr
      · split at hr
        · exact ih _ r hr
        · rcases List.mem_cons.mp hr with h1 | h2
          · subst h1
            rename_i hemp
            simp only [ne_eq, List.reverse_eq_nil_iff]
            simpa [List.isEmpty_iff] using hemp
          · exact ih _ r h2

theorem tokensOf_ne_empty (name : String) : ∀ t ∈ tokensOf name, t ≠ "" := by
  intro t ht
  simp only [tokensOf, List.mem_map] at ht
  obtain ⟨r, hr, rfl⟩ := ht
  have := splitRunsAux_ne_nil _ _ r hr
  simpa [String.ext_iff] using this

theorem any_guard_nonempty (B : String → Bool) :
    ∀ (ts : List String), (∀ t ∈ ts, t ≠ "") →
      (ts.any fun t => t ≠ "" && B t) = ts.any B := by
  intro ts h
  induction ts with
  | nil => rfl
  | cons t rest ih =>
      have ht : t ≠ "" := h t (List.mem_cons_self t rest)
      have ih2 := ih (fun x hx => h x (List.mem_cons_of_mem _ hx))
      rw [List.any_cons, List.any_cons, ih2]
      simp [ht]

/-- C4 (amended): the detail-page `findLocalImages` returns exactly the
candidates with a non-empty key satisfying the claimed disjunction (key
containment in either direction, or a token occurring in the lower-cased
filename or path); the list-view copy instead tests only whether the
candidate's key contains the name's key.  Neither raises on absent
matches: both are total and may return the empty list. -/
theorem c4_amended (entries : List ImgEntry) (name : String) :
    findLocalImages5 entries name =
      (entries.filter (fun e => e.key ≠ "" && c4SpecMatches name e)).map (·.url) ∧
    findLocalImages6 entries name =
      (entries.filter (fun e => sContains e.key (normalizeForKey name))).map (·.url) := by
  constructor
  · simp only [findLocalImages5]
    congr 1
    refine List.filter_congr ?_
    intro e _
    simp only [c4SpecMatches]
    by_cases hk : e.key = ""
    · simp [hk]
    · rw [any_guard_nonempty (fun t =>
          sContains (lowerStr e.filename) t || sContains (lowerStr e.path) t)
          (tokensOf name) (tokensOf_ne_empty name)]
      cases hA : sContains e.key (normalizeForKey name) <;>
        cases hB : sContains (normalizeForKey name) e.key <;>
          simp [hk, hA, hB]
  · rfl

/-- The candidate lists for the C4 counterexample. -/
def c4EmptyKeyEntry : ImgEntry := mkEntry "/src/pictures/--.jpg" "u0"

def c4LoversEntry : ImgEntry := mkEntry "/src/pictures/lovers.jpg" "u1"

/-- Counterexample to C4: a candidate with an empty normalised key
satisfies the claimed disjunction (the name's key contains the empty key)
yet is rejected by the detail-page guard; and the list-view copy rejects a
candidate whose key is strictly contained in the name's key although the
claimed disjunction accepts it. -/
theorem c4_cex :
    findLocalImages5 [c4EmptyKeyEntry] "x" = [] ∧
    ([c4EmptyKeyEntry].filter (c4SpecMatches "x")).map (·.url) = ["u0"] ∧
    findLocalImages6 [c4LoversEntry] "Lovers Leap Waterfall" = [] ∧
    ([c4LoversEntry].filter (c4SpecMatches "Lovers Leap Waterfall")).map (·.url) = ["u1"] := by
  refine ⟨?_, ?_, ?_, ?_⟩ <;> decide

/-- C10: in the detail-page Matcher, a name with an empty normalised key
matches every candidate whose own key is non-empty (the empty key is a
substring of every candidate key), and candidates with an empty key are
excluded from the result for every input name. -/
theorem c10_empty_key (entries : List ImgEntry) (name : String)
    (h : normalizeForKey name = "") :
    findLocalImages5 entries name = (entries.filter (fun e => e.key ≠ "")).map (·.url) ∧
    (∀ (nm : String) (es : List ImgEntry),
      findLocalImages5 es nm = findLocalImages5 (es.filter (fun e => e.key ≠ "")) nm) := by
  constructor
  · simp only [findLocalImages5, h]
    congr 1
    refine List.filter_congr ?_
    intro e _
    by_cases hk : e.key = ""
    · simp [hk]
    · simp [hk, sContains_empty]
  · intro nm es
    simp only [findLocalImages5, List.filter_filter]
    congr 2
    funext e
    by_cases hk : e.key = ""
    · simp [hk]
    · simp [hk]

/-- Witness for C10: the name ".." normalises to the empty key; with one
empty-key candidate and one ordinary candidate, exactly the ordinary
candidate is returned. -/
theorem c10_witness :
    normalizeForKey ".." = "" ∧
    findLocalImages5 [mkEntry "/src/pictures/a.jpg" "ua", mkEntry "/src/pictures/--.jpg" "u0"] ".." =
      ([mkEntry "/src/pictures/a.jpg" "ua", mkEntry "/src/pictures/--.jpg" "u0"].filter
        (fun e => e.key ≠ "")).map (·.url) :=
  ⟨by decide,
   (c10_empty_key [mkEntry "/src/pictures/a.jpg" "ua", mkEntry "/src/pictures/--.jpg" "u0"] ".."
     (by decide)).1⟩

/-! ## Claim C9: root preference is a stable partition -/

theorem insertCmp_front (c : α → α → Int) (x : α) (l : List α)
    (h : ∀ y ∈ l, c x y ≤ 0) : insertCmp c x l = x :: l := by
  cases l with
  | nil => rfl
  | cons y ys => simp [insertCmp, h y (List.mem_cons_self y ys)]

theorem insertCmp_skip (c : α → α → Int) (x : α) (p n : List α)
    (h : ∀ y ∈ p, 0 < c x y) : insertCmp c x (p ++ n) = p ++ insertCmp c x n := by
  induction p with
  | nil => rfl
  | cons y ys ih =>
      have hy : 0 < c x y := h y (List.mem_cons_self y ys)
      simp only [List.cons_append, insertCmp, if_neg (by omega : ¬ c x y ≤ 0)]
      simp only [List.append_eq]
      rw [ih (fun z hz => h z (List.mem_cons_of_mem _ hz))]

theorem sortEntries_partition (l : List ImgEntry) :
    sortEntries l = l.filter isPicRoot ++ l.filter (fun e => !(isPicRoot e)) := by
  induction l with
  | nil => rfl
  | cons x xs ih =>
      have step : sortEntries (x :: xs) = insertCmp cmpEntries x (sortEntries xs) := rfl
      rw [step, ih]
      by_cases hx : isPicRoot x = true
      · rw [insertCmp_front]
        · simp [List.filter_cons, hx]
        · intro y _
          unfold cmpEntries
          simp only [hx]
          split
          · omega
          · simp
      · have hx2 : isPicRoot x = false := by simpa using hx
        rw [insertCmp_skip]
        · rw [insertCmp_front]
          · simp [List.filter_cons, hx2]
          · intro y hy
            have hyn : isPicRoot y = false := by
              simpa using (List.mem_filter.mp hy).2
            unfold cmpEntries
            simp [hyn, hx2]
        · intro y hy
          have hyp : isPicRoot y = true := (List.mem_filter.mp hy).2
          unfold cmpEntries
          simp [hyp, hx2]

/-- The primary-root candidate of the C9 scenario. -/
def c9PicEntry : ImgEntry := mkEntry "/src/pictures/loversleap.jpg" "u-pic"

/-- The fallback-root candidate of the C9 scenario. -/
def c9OldEntry : ImgEntry := mkEntry "/src/assets/destinations/lovers-leap-old.jpg" "u-old"

/-- C9: the enumeration sort of the detail page is the stable partition
putting primary-root (`src/pictures`) candidates ahead of the rest while
preserving relative order inside each class; consequently, for the name
"Lovers' Leap Waterfall" with `loversleap.jpg` under the primary root and
`lovers-leap-old.jpg` under the fallback root, `findLocalImages` returns
both urls with the primary-root file first, whichever order enumeration
produced. -/
theorem c9_stable_preference :
    (∀ l : List ImgEntry,
      sortEntries l = l.filter isPicRoot ++ l.filter (fun e => !(isPicRoot e))) ∧
    findLocalImages5 (sortEntries [c9OldEntry, c9PicEntry]) "Lovers' Leap Waterfall" =
      ["u-pic", "u-old"] ∧
    findLocalImages5 (sortEntries [c9PicEntry, c9OldEntry]) "Lovers' Leap Waterfall" =
      ["u-pic", "u-old"] :=
  ⟨sortEntries_partition, by decide, by decide⟩

/-! ## Claim C3: manual override precedence -/

/-- Candidate list for the C3 scenarios: two primary-root files, a generic
"plains" picture enumerated first and the dedicated Horton Plains picture
second. -/
def c3Entries : List ImgEntry :=
  [mkEntry "/src/pictures/plains sunset.jpg" "uC",
   mkEntry "/src/pictures/New folder/horton plains.jpg" "uB"]

/-- Counterexample to C3: for "Horton Plains" the manual override resolves
to the dedicated picture, the generic algorithm also matches the other
file and lists it first, and the detail-page primary choice takes the
generic algorithm's first candidate, not the override's result. -/
theorem c3_cex :
    findManualOverride5 c3Entries "Horton Plains" = some "uB" ∧
    findLocalImages5 c3Entries "Horton Plains" = ["uC", "uB"] ∧
    primaryImageUrl5 c3Entries [] "Horton Plains" "Central Province" = some "uC" ∧
    ("uC" : String) ≠ "uB" := by
  refine ⟨?_, ?_, ?_, ?_⟩ <;> decide

/-- C3 (amended), one rule per page, each in full generality.  List-view
card: whenever the database supplies no image, a firing manual override
(any non-empty resolution) is the primary choice — whatever the generic
algorithm would return.  Detail page: with no database primary image, the
first generic candidate takes precedence whenever one exists — whatever
the override would return — and a firing override is the primary choice
only when the generic algorithm returns no candidate. -/
theorem c3_amended :
    (∀ (entries : List ImgEntry) (name prov u : String),
      findManualOverride6 entries name = some u → u ≠ "" →
      cardImage6 entries [] name prov = some u) ∧
    (∀ (entries : List ImgEntry) (dims : List DImage) (name prov w : String),
      dims.find? (fun img => img.is_primary) = none →
      (findLocalImages5 entries name).head? = some w → w ≠ "" →
      primaryImageUrl5 entries dims name prov = some w) ∧
    (∀ (entries : List ImgEntry) (dims : List DImage) (name prov v : String),
      dims.find? (fun img => img.is_primary) = none →
      findLocalImages5 entries name = [] →
      findManualOverride5 entries name = some v → v ≠ "" →
      primaryImageUrl5 entries dims name prov = some v) := by
  refine ⟨?_, ?_, ?_⟩
  · intro entries name prov u hu6 hu
    simp [cardImage6, jsOrS, hu6, hu]
  · intro entries dims name prov w hprim hw hwne
    simp [primaryImageUrl5, hprim, jsOrS, hw, hwne]
  · intro entries dims name prov v hprim hloc hv5 hv
    simp [primaryImageUrl5, hprim, hloc, jsOrS, hv5, hv]

/-- Witness for C3: on "Horton Plains" the card takes the firing override
although the generic list is non-empty, while the detail page takes the
first generic candidate; on "Worlds End" the generic list is empty and
the detail page takes the override. -/
theorem c3_witness :
    cardImage6 c3Entries [] "Horton Plains" "Central Province" = some "uB" ∧
    primaryImageUrl5 c3Entries [] "Horton Plains" "Central Province" = some "uC" ∧
    primaryImageUrl5 c3Entries [] "Worlds End" "Central Province" = some "uB" :=
  ⟨c3_amended.1 c3Entries "Horton Plains" "Central Province" "uB" (by decide) (by decide),
   c3_amended.2.1 c3Entries [] "Horton Plains" "Central Province" "uC"
     rfl (by decide) (by decide),
   c3_amended.2.2 c3Entries [] "Worlds End" "Central Province" "uB"
     rfl (by decide) (by decide) (by decide)⟩

/-! ## Claim C5: fallback description generation -/

theorem strData_append (a b : String) : (a ++ b).data = a.data ++ b.data := rfl

theorem prefixOfChars_append (s t : List Char) : prefixOfChars s (s ++ t) = true := by
  induction s with
  | nil => rfl
  | cons c cs ih => simp [prefixOfChars, ih]

theorem containsFrom_append_of (n rest : List Char) (h : containsFrom n rest = true)
    (p : List Char) : containsFrom n (p ++ rest) = true := by
  induction p with
  | nil => simpa
  | cons c cs ih => simp [containsFrom, ih]

theorem containsFrom_self_append (n t : List Char) : containsFrom n (n ++ t) = true := by
  cases n with
  | nil => exact containsFrom_nil_needle _
  | cons c cs =>
      simp only [containsFrom, Bool.or_eq_true]
      exact Or.inl (prefixOfChars_append (c :: cs) t)

/-- C5 (amended): when the name hits no manual override and no fallback
pattern, the list-view `getSnippet` — provided the (non-empty) province
name also hits no pattern — returns the generated template sentence, which
contains the literal name and the province name; under the same
no-override/no-pattern hypotheses the detail-page `getFallback` instead
returns nothing at all (the detail page then renders no description
section). -/
theorem c5_amended (name prov : String)
    (hov6 : recLookup manualTextOverrides6 (normalizeForKey name) = none)
    (hf6 : fallbackSnippets.find? (fun f => rxTestI f.1 name) = none)
    (hp : prov ≠ "")
    (hfp : fallbackSnippets.find? (fun f : Rx × String => rxTestI f.1 prov) = none)
    (hov5 : recLookup manualTextOverrides5 (normalizeForKey name) = none)
    (hf5 : fallbackDescriptions.find? (fun f => rxTestI f.1 name) = none) :
    getSnippet name (some prov) =
      "Explore " ++ name ++ (" in " ++ prov) ++
        ". Discover highlights, local culture, and visitor tips for this destination." ∧
    sContains (getSnippet name (some prov)) name = true ∧
    sContains (getSnippet name (some prov)) prov = true ∧
    getFallback name = none := by
  have hs : getSnippet name (some prov) =
      "Explore " ++ name ++ (" in " ++ prov) ++
        ". Discover highlights, local culture, and visitor tips for this destination." := by
    simp [getSnippet, hov6, hf6, hfp, truthyS, hp]
  refine ⟨hs, ?_, ?_, ?_⟩
  · rw [hs]
    show containsFrom name.data _ = true
    simp only [strData_append, List.append_assoc]
    exact containsFrom_append_of _ _ (containsFrom_self_append _ _) _
  · rw [hs]
    show containsFrom prov.data _ = true
    simp only [strData_append, List.append_assoc]
    exact containsFrom_append_of _ _
      (containsFrom_append_of _ _
        (containsFrom_append_of _ _ (containsFrom_self_append _ _) _) _) _
  · simp [getFallback, hov5, hf5, truthyS]

/-- Counterexample to C5: for a name hitting no override and no pattern,
the detail-page generator returns no description at all; and when the
province name itself hits a fallback pattern, the list view returns that
pattern's text, which need not contain the entity's name. -/
theorem c5_cex :
    getFallback "Totally Unknown Place" = none ∧
    getSnippet "Totally Unknown Place" (some "Jaffna") =
      "Jaffna Fort — large, well-preserved colonial fort with star-shaped ramparts and lagoon views." ∧
    sContains (getSnippet "Totally Unknown Place" (some "Jaffna")) "Totally Unknown Place" = false := by
  refine ⟨?_, ?_, ?_⟩ <;> rfl

/-- Witness for C5 at the spec's scenario D inputs. -/
theorem c5_witness :
    getSnippet "Totally Unknown Place" (some "Test Province") =
      "Explore " ++ "Totally Unknown Place" ++ (" in " ++ "Test Province") ++
        ". Discover highlights, local culture, and visitor tips for this destination." ∧
    sContains (getSnippet "Totally Unknown Place" (some "Test Province"))
      "Totally Unknown Place" = true ∧
    sContains (getSnippet "Totally Unknown Place" (some "Test Province"))
      "Test Province" = true ∧
    getFallback "Totally Unknown Place" = none :=
  c5_amended "Totally Unknown Place" "Test Province"
    (by rfl) (by rfl) (by decide) (by rfl) (by rfl) (by rfl)

/-! ## Claim C2: the equal-score tie-break -/

/-- Entity with the larger id but a longer description (score 2 from the
description). -/
def c2A : Entity := { id := "b", name := some "x", description := some "hi" }

/-- Entity with the smaller id and the same score (2 from the image). -/
def c2B : Entity := { id := "a", name := some "x", image_url := some "u" }

/-- Counterexample to C2: in the maintenance script two equal-score
entities are tie-broken by description length first; the keeper is the one
with the longer description even though its id is lexically larger, in
both input orders. -/
theorem c2_cex :
    scoreScript c2A = scoreScript c2B ∧
    strLt c2B.id c2A.id = true ∧
    groupActionScript [c2A, c2B] = [(c2A, [c2B])] ∧
    groupActionScript [c2B, c2A] = [(c2A, [c2B])] := by
  refine ⟨?_, ?_, ?_, ?_⟩ <;> decide

/-- C2 (amended): with equal scores the admin handler and the list view
always keep the entity with the lexically smaller id, regardless of input
order; the maintenance script does so only when the description lengths
also tie, because it prefers a longer description before comparing ids. -/
theorem charListLt_asymm :
    ∀ (a b : List Char), charListLt a b = true → charListLt b a = false := by
  intro a
  induction a with
  | nil =>
      intro b h
      cases b with
      | nil => rfl
      | cons d ds => simp [charListLt] at h ⊢
  | cons c cs ih =>
      intro b h
      cases b with
      | nil => simp [charListLt] at h
      | cons d ds =>
          simp only [charListLt] at h ⊢
          by_cases hcd : c < d
          · have hdc : ¬ d < c := lt_asymm hcd
            simp [hcd, hdc]
          · by_cases hdc : d < c
            · simp [hcd, hdc] at h
            · rw [if_neg hcd, if_neg hdc] at h
              rw [if_neg hdc, if_neg hcd]
              exact ih ds h

theorem strLt_asymm (a b : String) (h : strLt a b = true) : strLt b a = false :=
  charListLt_asymm a.data b.data h

/-- C2 (amended), one rule per call site, each in full generality over the
entity pair.  Admin handler and list view: two entities with equal score
(at that site) are tie-broken by ascending lexical id alone — no other
attribute enters — regardless of input order.  Maintenance script: equal
score is tie-broken by description length first; the lexically smaller id
decides only when the description lengths also tie. -/
theorem c2_amended :
    (∀ a b : Entity, strLt a.id b.id = true → scoreAdmin a = scoreAdmin b →
      groupDeleteAdmin [a, b] = [b.id] ∧ groupDeleteAdmin [b, a] = [b.id]) ∧
    (∀ a b : Entity, strLt a.id b.id = true → scoreList a = scoreList b →
      groupChoiceList [a, b] = [a] ∧ groupChoiceList [b, a] = [a]) ∧
    (∀ a b : Entity, strLt a.id b.id = true → scoreScript a = scoreScript b →
      descLen a = descLen b →
      groupActionScript [a, b] = [(a, [b])] ∧ groupActionScript [b, a] = [(a, [b])]) := by
  refine ⟨?_, ?_, ?_⟩
  · intro a b hid hA
    have hba : strLt b.id a.id = false := strLt_asymm a.id b.id hid
    constructor <;>
      simp [groupDeleteAdmin, sortCmp_pair, cmpAdmin, localeCompare, hA.symm, hid, hba]
  · intro a b hid hL
    have hba : strLt b.id a.id = false := strLt_asymm a.id b.id hid
    constructor <;>
      simp [groupChoiceList, sortCmp_pair, cmpList, localeCompare, hL.symm, hid, hba]
  · intro a b hid hS hD
    have hba : strLt b.id a.id = false := strLt_asymm a.id b.id hid
    constructor <;>
      simp [groupActionScript, sortCmp_pair, cmpScript, localeCompare,
        hS.symm, hD.symm, hid, hba]

/-- Witness for C2: the admin and list-view rules applied to the equal-score
pair whose description lengths differ (2 versus 0) — precisely where the
script would decide otherwise — and the script rule at two score-0
entities with equal (zero) description length. -/
theorem c2_witness :
    scoreAdmin c2B = scoreAdmin c2A ∧ descLen c2B ≠ descLen c2A ∧
    (groupDeleteAdmin [c2B, c2A] = ["b"] ∧ groupDeleteAdmin [c2A, c2B] = ["b"]) ∧
    (groupChoiceList [c2B, c2A] = [c2B] ∧ groupChoiceList [c2A, c2B] = [c2B]) ∧
    (groupActionScript [{ id := "a" }, { id := "b" }] = [({ id := "a" }, [{ id := "b" }])] ∧
      groupActionScript [{ id := "b" }, { id := "a" }] = [({ id := "a" }, [{ id := "b" }])]) :=
  ⟨by decide, by decide,
   c2_amended.1 c2B c2A (by decide) (by decide),
   c2_amended.2.1 c2B c2A (by decide) (by decide),
   c2_amended.2.2 { id := "a" } { id := "b" } (by decide) rfl rfl⟩

/-! ## Claim C8: singleton groups produce no action -/

theorem addToGroups_keyinv {key : Entity → String} {gs : List (String × List Entity)}
    (hinv : ∀ p ∈ gs, ∀ x ∈ p.2, key x = p.1) (e : Entity) :
    ∀ p ∈ addToGroups (key e) e gs, ∀ x ∈ p.2, key x = p.1 := by
  induction gs with
  | nil =>
      intro p hp x hx
      simp only [addToGroups, List.mem_singleton] at hp
      subst hp
      simp only [List.mem_singleton] at hx
      subst hx
      rfl
  | cons g rest ih =>
      obtain ⟨k2, es⟩ := g
      intro p hp x hx
      simp only [addToGroups] at hp
      by_cases hk : k2 = key e
      · rw [if_pos hk] at hp
        rcases List.mem_cons.mp hp with h1 | h2
        · subst h1
          rcases List.mem_append.mp hx with hx1 | hx2
          · exact hinv (k2, es) (List.mem_cons_self _ _) x hx1
          · simp only [List.mem_singleton] at hx2
            subst hx2
            exact hk.symm
        · exact hinv p (List.mem_cons_of_mem _ h2) x hx
      · rw [if_neg hk] at hp
        rcases List.mem_cons.mp hp with h1 | h2
        · subst h1
          exact hinv (k2, es) (List.mem_cons_self _ _) x hx
        · exact ih (fun q hq => hinv q (List.mem_cons_of_mem _ hq)) p h2 x hx

theorem groupsAux_keyinv (key : Entity → String) :
    ∀ (l : List Entity) (gs : List (String × List Entity)),
      (∀ p ∈ gs, ∀ x ∈ p.2, key x = p.1) →
      ∀ p ∈ l.foldl (fun gs e => addToGroups (key e) e gs) gs, ∀ x ∈ p.2, key x = p.1 := by
  intro l
  induction l with
  | nil =>
      intro gs h
      simpa using h
  | cons e t ih =>
      intro gs h
      simp only [List.foldl_cons]
      exact ih _ (addToGroups_keyinv h e)

theorem groupsOf_keyinv (key : Entity → String) (l : List Entity) :
    ∀ p ∈ groupsOf key l, ∀ x ∈ p.2, key x = p.1 :=
  groupsAux_keyinv key l [] (by simp)

theorem addToGroups_mem_sub (k : String) (e x : Entity) :
    ∀ (gs : List (String × List Entity)) (p : String × List Entity),
      p ∈ addToGroups k e gs → x ∈ p.2 →
      (∃ q ∈ gs, x ∈ q.2) ∨ x = e := by
  intro gs
  induction gs with
  | nil =>
      intro p hp hx
      simp only [addToGroups, List.mem_singleton] at hp
      subst hp
      simp only [List.mem_singleton] at hx
      right
      exact hx
  | cons g rest ih =>
      obtain ⟨k2, es⟩ := g
      intro p hp hx
      simp only [addToGroups] at hp
      by_cases hk : k2 = k
      · rw [if_pos hk] at hp
        rcases List.mem_cons.mp hp with h1 | h2
        · subst h1
          rcases List.mem_append.mp hx with hx1 | hx2
          · exact Or.inl ⟨(k2, es), List.mem_cons_self _ _, hx1⟩
          · simp only [List.mem_singleton] at hx2
            right
            exact hx2
        · exact Or.inl ⟨p, List.mem_cons_of_mem _ h2, hx⟩
      · rw [if_neg hk] at hp
        rcases List.mem_cons.mp hp with h1 | h2
        · subst h1
          exact Or.inl ⟨(k2, es), List.mem_cons_self _ _, hx⟩
        · rcases ih p h2 hx with ⟨q, hq, hxq⟩ | he
          · exact Or.inl ⟨q, List.mem_cons_of_mem _ hq, hxq⟩
          · exact Or.inr he

theorem groupsAux_mem_sub (key : Entity → String) :
    ∀ (l : List Entity) (gs : List (String × List Entity)) (p : String × List Entity)
      (x : Entity),
      p ∈ l.foldl (fun gs e => addToGroups (key e) e gs) gs → x ∈ p.2 →
      (∃ q ∈ gs, x ∈ q.2) ∨ x ∈ l := by
  intro l
  induction l with
  | nil =>
      intro gs p x hp hx
      exact Or.inl ⟨p, hp, hx⟩
  | cons e t ih =>
      intro gs p x hp hx
      simp only [List.foldl_cons] at hp
      rcases ih _ p x hp hx with ⟨q, hq, hxq⟩ | hxt
      · rcases addToGroups_mem_sub (key e) e x gs q hq hxq with h | h
        · rcases h with ⟨q2, hq2, hxq2⟩
          exact Or.inl ⟨q2, hq2, hxq2⟩
        · right
          simp [h]
      · right
        simp [hxt]

theorem groupsOf_mem_entity (key : Entity → String) (l : List Entity)
    (p : String × List Entity) (x : Entity)
    (hp : p ∈ groupsOf key l) (hx : x ∈ p.2) : x ∈ l := by
  rcases groupsAux_mem_sub key l [] p x hp hx with ⟨q, hq, _⟩ | h
  · simp at hq
  · exact h

theorem addToGroups_keys (k : String) (e : Entity) :
    ∀ gs : List (String × List Entity),
      (addToGroups k e gs).map Prod.fst =
        if k ∈ gs.map Prod.fst then gs.map Prod.fst else gs.map Prod.fst ++ [k] := by
  intro gs
  induction gs with
  | nil => simp [addToGroups]
  | cons g rest ih =>
      obtain ⟨k2, es⟩ := g
      by_cases hk : k2 = k
      · simp [addToGroups, hk]
      · simp only [addToGroups, if_neg hk, List.map_cons, ih]
        by_cases hmem : k ∈ rest.map Prod.fst
        · simp [hmem, Ne.symm hk]
        · simp [hmem, Ne.symm hk]

theorem addToGroups_keys_nodup (k : String) (e : Entity)
    (gs : List (String × List Entity)) (h : (gs.map Prod.fst).Nodup) :
    ((addToGroups k e gs).map Prod.fst).Nodup := by
  rw [addToGroups_keys]
  split
  · exact h
  · next hmem => simp [List.nodup_append, h, hmem]

theorem groupsAux_keys_nodup (key : Entity → String) :
    ∀ (l : List Entity) (gs : List (String × List Entity)),
      (gs.map Prod.fst).Nodup →
      ((l.foldl (fun gs e => addToGroups (key e) e gs) gs).map Prod.fst).Nodup := by
  intro l
  induction l with
  | nil =>
      intro gs h
      simpa using h
  | cons e t ih =>
      intro gs h
      simp only [List.foldl_cons]
      exact ih _ (addToGroups_keys_nodup _ _ _ h)

theorem groupsOf_keys_nodup (key : Entity → String) (l : List Entity) :
    ((groupsOf key l).map Prod.fst).Nodup :=
  groupsAux_keys_nodup key l [] (by simp)

theorem nodup_keys_unique {β : Type} :
    ∀ (gs : List (String × β)), (gs.map Prod.fst).Nodup →
      ∀ (k : String) (a b : β), (k, a) ∈ gs → (k, b) ∈ gs → a = b := by
  intro gs
  induction gs with
  | nil => simp
  | cons g rest ih =>
      intro h k a b ha hb
      obtain ⟨k2, c⟩ := g
      simp only [List.map_cons, List.nodup_cons] at h
      rcases List.mem_cons.mp ha with h1 | h2 <;> rcases List.mem_cons.mp hb with g1 | g2
      · injection h1 with h1a h1b
        injection g1 with g1a g1b
        rw [h1b, g1b]
      · injection h1 with h1a h1b
        subst h1a
        exact absurd (List.mem_map_of_mem Prod.fst g2) h.1
      · injection g1 with g1a g1b
        subst g1a
        exact absurd (List.mem_map_of_mem Prod.fst h2) h.1
      · exact ih h.2 k a b h2 g2

theorem groupActionScript_sub (es : List Entity) (g : Entity × List Entity)
    (hg : g ∈ groupActionScript es) :
    1 < es.length ∧ ∀ r ∈ g.2, r ∈ es := by
  unfold groupActionScript at hg
  split at hg
  · simp at hg
  · next hlen =>
      split at hg
      · simp at hg
      · next k rest hsort =>
          simp only [List.mem_singleton] at hg
          subst hg
          refine ⟨by omega, ?_⟩
          intro r hr
          simp only [List.mem_map] at hr
          obtain ⟨sc, hsc, rfl⟩ := hr
          have hmem : sc ∈ sortCmp cmpScript (es.map (fun item => ⟨item, scoreScript item⟩)) := by
            rw [hsort]
            exact List.mem_cons_of_mem _ hsc
          rw [mem_sortCmp] at hmem
          simp only [List.mem_map] at hmem
          obtain ⟨i, hi, hieq⟩ := hmem
          rw [← hieq]
          exact hi

theorem groupDeleteAdmin_sub (es : List Entity) (i : String)
    (hi : i ∈ groupDeleteAdmin es) :
    1 < es.length ∧ ∃ r ∈ es, r.id = i := by
  unfold groupDeleteAdmin at hi
  split at hi
  · simp at hi
  · next hlen =>
      split at hi
      · simp at hi
      · next k rest hsort =>
          simp only [List.mem_map] at hi
          obtain ⟨sc, hsc, hscid⟩ := hi
          have hmem : sc ∈ sortCmp cmpAdmin (es.map (fun item => ⟨item, scoreAdmin item⟩)) := by
            rw [hsort]
            exact List.mem_cons_of_mem _ hsc
          rw [mem_sortCmp] at hmem
          simp only [List.mem_map] at hmem
          obtain ⟨r, hr, hreq⟩ := hmem
          refine ⟨by omega, r, hr, ?_⟩
          rw [← hscid, ← hreq]

/-- C8: an entity whose duplicate group is a singleton is never acted on:
its id is absent from the script's deletion list and from the admin
handler's `idsToDelete`, and the entity survives the list-view
deduplication (assuming, as the schema guarantees, that ids are unique in
the input). -/
theorem c8_singletons (l : List Entity) (e : Entity) (k : String)
    (hnod : (l.map (·.id)).Nodup)
    (hg : (k, [e]) ∈ groupsOf entityKey l) :
    e.id ∉ toDeleteScript l ∧ e.id ∉ idsToDeleteAdmin l ∧ e ∈ dedupeDestinations l := by
  have hkey : entityKey e = k :=
    groupsOf_keyinv entityKey l (k, [e]) hg e (by simp)
  have hel : e ∈ l := groupsOf_mem_entity entityKey l (k, [e]) e hg (by simp)
  have hndk := groupsOf_keys_nodup entityKey l
  have same_id_eq : ∀ r ∈ l, r.id = e.id → r = e := by
    intro r hr hid
    exact List.inj_on_of_nodup_map hnod hr hel hid
  refine ⟨?_, ?_, ?_⟩
  · intro hmem
    simp only [toDeleteScript, duplicatesScript, List.mem_flatMap, List.mem_map] at hmem
    obtain ⟨g, ⟨es, ⟨p, hp, hpsnd⟩, hact⟩, r, hrg, hrid⟩ := hmem
    subst hpsnd
    obtain ⟨hlen, hsub⟩ := groupActionScript_sub p.2 g hact
    have hr2 : r ∈ p.2 := hsub r hrg
    have hrl : r ∈ l := groupsOf_mem_entity entityKey l p r hp hr2
    have hre : r = e := same_id_eq r hrl hrid
    subst hre
    have hpk : p.1 = k := by
      rw [← hkey]
      exact (groupsOf_keyinv entityKey l p hp r hr2).symm
    have : p.2 = [r] := by
      refine nodup_keys_unique (groupsOf entityKey l) hndk k p.2 [r] ?_ hg
      rw [← hpk]
      exact hp
    rw [this] at hlen
    simp at hlen
  · intro hmem
    simp only [idsToDeleteAdmin, List.mem_flatMap, List.mem_map] at hmem
    obtain ⟨es, ⟨p, hp, hpsnd⟩, hdel⟩ := hmem
    subst hpsnd
    obtain ⟨hlen, r, hr2, hrid⟩ := groupDeleteAdmin_sub p.2 e.id hdel
    have hrl : r ∈ l := groupsOf_mem_entity entityKey l p r hp hr2
    have hre : r = e := same_id_eq r hrl hrid
    subst hre
    have hpk : p.1 = k := by
      rw [← hkey]
      exact (groupsOf_keyinv entityKey l p hp r hr2).symm
    have : p.2 = [r] := by
      refine nodup_keys_unique (groupsOf entityKey l) hndk k p.2 [r] ?_ hg
      rw [← hpk]
      exact hp
    rw [this] at hlen
    simp at hlen
  · have hchosen : e ∈ ((groupsOf entityKey l).map Prod.snd).flatMap groupChoiceList := by
      rw [List.mem_flatMap]
      refine ⟨[e], List.mem_map_of_mem Prod.snd hg, ?_⟩
      simp [groupChoiceList]
    simp only [dedupeDestinations]
    rw [mem_sortCmp]
    exact hchosen

/-- The singleton-group entity of the C8 witness. -/
def c8E : Entity := { id := "1", name := some "Unique Place" }

/-- A list with one singleton group and one duplicate pair. -/
def c8List : List Entity :=
  [c8E,
   { id := "2", name := some "Temple" },
   { id := "3", name := some "temple!!" }]

/-- Witness for C8: the singleton "Unique Place" row is untouched at every
site while the duplicate pair is resolved. -/
theorem c8_witness :
    ("uniqueplace", [c8E]) ∈ groupsOf entityKey c8List ∧
    (c8E.id ∉ toDeleteScript c8List ∧ c8E.id ∉ idsToDeleteAdmin c8List ∧
      c8E ∈ dedupeDestinations c8List) :=
  ⟨by decide, c8_singletons c8List c8E "uniqueplace" (by decide) (by decide)⟩
